import Mathlib

/-!
Verification of the fetch-normalize-materialize ingestion routines of the
`data_playground` repository, shallowly embedded in Lean 4.

Sources embedded here:
* `berlin-weather/assets/raw/weather_raw.py` — `fetch_weather_data`, `materialize`
* `stackoverflow-trends/assets/raw/stackoverflow_api_raw.py` — `fetch_monthly_count`, `materialize`

Modelling conventions:
* Parsed JSON response bodies are values of the `Json` inductive; a response is a
  final HTTP status code together with a parsed body (responses whose bodies are
  not valid JSON are outside every property treated here, since the properties
  all speak about valid-JSON bodies or about transport failures).
* The HTTP layer (`requests.get`) is a function from the request parameters to a
  response; `Response.raise_for_status` raises exactly on status codes 400–599,
  per the `requests` library it embeds.
* Python string comparison (`end_date > yesterday`) is embedded as
  lexicographic comparison of the code-point sequences (`charListLtB`), which is
  what Python's `<` on `str` does for the ASCII strings involved.
* Loops (`while (year, month) <= ...` and the modelled per-day response
  enumeration) are embedded with explicit fuel so that every definition is
  structurally recursive and hence executable by the kernel; termination of the
  source loop is then a theorem (fuel-independence), not an assumption.
* `pandas.DataFrame` construction from a dict of equal-length lists is embedded
  column-orientedly (`WeatherRaw.toTable`); construction from a list of dicts is
  embedded row-orientedly (Stack Exchange rows).
-/

/-! ## Characters, decimal digits and Python string comparison -/

/-- The ASCII digit character for `n` (meaningful for `n ≤ 9`). -/
def dch (n : Nat) : Char := Char.ofNat (48 + n)

/-- Two-digit zero-padded decimal rendering, as produced by Python's `f"{n:02d}"`
for `n ≤ 99`. -/
def pad2 (n : Nat) : List Char := [dch (n / 10), dch (n % 10)]

/-- Four-digit zero-padded decimal rendering (`f"{n:04d}"` for `n ≤ 9999`);
ISO-8601 dates rendered by `strftime("%Y-%m-%d")` use this year form. -/
def pad4 (n : Nat) : List Char :=
  [dch (n / 1000), dch (n / 100 % 10), dch (n / 10 % 10), dch (n % 10)]

/-- Python's `<` on strings: lexicographic comparison of code points. -/
def charListLtB : List Char → List Char → Bool
  | [], [] => false
  | [], _ :: _ => true
  | _ :: _, [] => false
  | a :: as, b :: bs => if a < b then true else if b < a then false else charListLtB as bs

/-- Python string comparison `s < t`. -/
def strLtB (s t : String) : Bool := charListLtB s.data t.data

/-- Unpadded decimal rendering of a natural number (Python's `f"{n}"`),
with explicit fuel so that the definition is structurally recursive.
`natDigits` below supplies sufficient fuel. -/
def natDigitsF : Nat → Nat → List Char
  | 0, _ => []
  | fuel + 1, n => if n < 10 then [dch n] else natDigitsF fuel (n / 10) ++ [dch (n % 10)]

/-- Decimal rendering of `n` (Python's `f"{n}"`); `n` itself is always enough fuel. -/
def natDigits (n : Nat) : List Char := natDigitsF (n + 1) n

/-! ## Calendar dates -/

/-- A calendar date, as manipulated by the routines (`datetime.date`). -/
structure SDate where
  y : Nat
  m : Nat
  d : Nat
deriving DecidableEq

/-- Numeric key of a date; for in-range fields this orders dates chronologically. -/
def SDate.key (dt : SDate) : Nat := dt.y * 10000 + dt.m * 100 + dt.d

/-- The ISO-8601 rendering `YYYY-MM-DD` of a date, as a character list. -/
def SDate.isoChars (dt : SDate) : List Char :=
  pad4 dt.y ++ ('-' :: (pad2 dt.m ++ ('-' :: pad2 dt.d)))

/-- The ISO-8601 rendering `YYYY-MM-DD` (Python `strftime("%Y-%m-%d")` /
`date.isoformat()`). -/
def SDate.iso (dt : SDate) : String := String.mk dt.isoChars

/-- Gregorian leap-year test (`calendar.isleap`). -/
def isLeap (y : Nat) : Bool := y % 4 = 0 && (y % 100 != 0 || y % 400 = 0)

/-- Number of days in a month (`calendar.monthrange(y, m)[1]`). -/
def monthLen (y m : Nat) : Nat :=
  if m = 2 then (if isLeap y then 29 else 28)
  else if m = 4 ∨ m = 6 ∨ m = 9 ∨ m = 11 then 30
  else 31

/-- A date whose fields are an actual Gregorian calendar date with a four-digit
year, i.e. one representable by `datetime.date`. -/
def SDate.Valid (dt : SDate) : Prop :=
  1 ≤ dt.m ∧ dt.m ≤ 12 ∧ 1 ≤ dt.d ∧ dt.d ≤ monthLen dt.y dt.m ∧ dt.y ≤ 9999

instance (dt : SDate) : Decidable dt.Valid := by
  unfold SDate.Valid; infer_instance

/-- The next calendar day (`date + timedelta(days=1)`). -/
def nextDay (dt : SDate) : SDate :=
  if dt.d < monthLen dt.y dt.m then ⟨dt.y, dt.m, dt.d + 1⟩
  else if dt.m < 12 then ⟨dt.y, dt.m + 1, 1⟩
  else ⟨dt.y + 1, 1, 1⟩

/-- All calendar days from `cur` to `last` inclusive, with explicit fuel. -/
def daysFrom : Nat → SDate → SDate → List SDate
  | 0, _, _ => []
  | fuel + 1, cur, last =>
    if cur.key ≤ last.key then cur :: daysFrom fuel (nextDay cur) last else []

/-- The inclusive day range `[s, e]`; the key difference is sufficient fuel,
since `nextDay` strictly increases the key. An empty list when `e` is before `s`. -/
def daysInWindow (s e : SDate) : List SDate := daysFrom (e.key + 1 - s.key) s e

/-! ## Parsed JSON and HTTP responses -/

/-- Parsed JSON values (the result of `response.json()`).  Numeric payloads the
routines never compute with (temperatures, counts, timestamps) are carried as
`Int`; their exact numeric type is irrelevant to every property proved here. -/
inductive Json where
  | str (s : String)
  | num (n : Int)
  | arr (elems : List Json)
  | obj (fields : List (String × Json))

/-- Key lookup in a parsed JSON object (Python `data[k]` / `k in data`). -/
def getKey? (fields : List (String × Json)) (k : String) : Option Json :=
  match fields with
  | [] => none
  | (k', v) :: rest => if k' = k then some v else getKey? rest k

/-- Python `repr` of a parsed JSON value, as interpolated by an f-string
(`f"... {data}"`).  The fuel bounds nesting depth only; the response bodies of
both APIs have depth at most 3, and every property proved about the rendering
holds for any rendering function, so the placeholder at fuel 0 is never visible. -/
def pyReprF : Nat → Json → String
  | 0, _ => "..."
  | fuel + 1, j =>
    match j with
    | .str s => "\x27" ++ s ++ "\x27"
    | .num n => toString n
    | .arr xs => "[" ++ String.intercalate ", " (xs.map (pyReprF fuel)) ++ "]"
    | .obj fs =>
        "\x7b" ++
          String.intercalate ", "
            (fs.map (fun f => "\x27" ++ f.1 ++ "\x27: " ++ pyReprF fuel f.2)) ++
        "\x7d"

/-- Python `repr` of a parsed JSON value. -/
def pyRepr (j : Json) : String := pyReprF 1000 j

/-- An HTTP response as the routines observe it: the final status code after the
client followed redirects, together with the parsed JSON body. -/
structure ApiResponse where
  status : Nat
  body : List (String × Json)

/-- `Response.raise_for_status()` of the `requests` library raises `HTTPError`
exactly for client errors (4xx) and server errors (5xx). -/
def raisesForStatus (status : Nat) : Bool := 400 ≤ status && status < 600

/-! ## `berlin-weather/assets/raw/weather_raw.py` -/

namespace WeatherRaw

/-- The `daily` variables requested from the Open-Meteo archive API
(module constant `DAILY_VARIABLES`). -/
def DAILY_VARIABLES : List String :=
  ["weather_code", "temperature_2m_max", "temperature_2m_min", "temperature_2m_mean",
   "precipitation_sum", "rain_sum", "snowfall_sum", "precipitation_hours",
   "wind_speed_10m_max", "sunshine_duration"]

/-- The column names declared in the asset's schema block: the `daily` response
block (`time` plus the requested variables) and the appended `extracted_at`. -/
def declaredCols : List String := "time" :: DAILY_VARIABLES ++ ["extracted_at"]

/-- A weather table, column-oriented exactly like the `pandas.DataFrame` built
from the `daily` dict of lists: column names paired with column values. -/
abbrev WTable := List (String × List Json)

/-- Errors `fetch_weather_data` and `materialize` can raise:
`httpError` is the `requests.HTTPError` raised by `raise_for_status` (it carries
the offending response); `schemaError` is the `ValueError` raised for a missing
`daily` key (it carries the formatted message); `frameError` stands for the
`pandas` error raised when the `daily` value is not a dict of equal-length
lists; `keyError` is a Python `KeyError` (raised by `df["time"]` in
`materialize` when the response lacks a `time` column). -/
inductive WErr where
  | httpError (resp : ApiResponse)
  | schemaError (msg : String)
  | frameError
  | keyError (k : String)

/-- Number of rows of the DataFrame built from a dict of equal-length lists. -/
def nRows (t : WTable) : Nat :=
  match t with
  | [] => 0
  | (_, col) :: _ => col.length

/-- Reads a parsed JSON object as a dict of named arrays (columns); `none` when
some value is not an array. -/
def colsOfFields : List (String × Json) → Option (List (String × List Json))
  | [] => some []
  | (k, .arr xs) :: rest => (colsOfFields rest).map (fun cs => (k, xs) :: cs)
  | _ => none

/-- `pandas.DataFrame(data["daily"])`: the `daily` value must be an object all
of whose values are arrays of one common length; its keys become the columns.
(The `pandas` broadcasting of scalar values is not modelled: no property here
exercises it, and a non-tabular value is mapped to `frameError`.) -/
def toTable (j : Json) : Except WErr WTable :=
  match j with
  | .obj fields =>
    match colsOfFields fields with
    | some cols =>
      if cols.all (fun c => c.2.length == nRows cols) then .ok cols else .error .frameError
    | none => .error .frameError
  | _ => .error .frameError

/-- `fetch_weather_data(start_date, end_date)`, as a function of the response
the HTTP layer produced for the request: `raise_for_status`, then the `daily`
presence check (raising `ValueError` whose message interpolates the parsed
body), then DataFrame construction from `data["daily"]`. -/
def fetch_weather_data (resp : ApiResponse) : Except WErr WTable :=
  if raisesForStatus resp.status then .error (.httpError resp)
  else
    match getKey? resp.body "daily" with
    | none =>
        .error (.schemaError
          ("Unexpected API response: missing \x27daily\x27 key. Response: " ++
            pyRepr (.obj resp.body)))
    | some j => toTable j

/-- `df["extracted_at"] = datetime.now()`: appends the extraction-timestamp
column, broadcast to every row. -/
def withExtracted (t : WTable) (ts : Json) : WTable :=
  t ++ [("extracted_at", List.replicate (nRows t) ts)]

/-- The effective end date: `materialize` clamps the requested end date to
yesterday when the former is the larger string (`if end_date > yesterday`). -/
def effEnd (endDate yesterday : String) : String :=
  if strLtB yesterday endDate then yesterday else endDate

/-- `materialize()` of the weather asset.  Parameters make the ambient inputs
explicit: `api` is the HTTP layer (response as a function of the
`start_date`/`end_date` request parameters; the remaining parameters of the GET
are fixed constants), `envStart`/`envEnd` are `BRUIN_START_DATE`/`BRUIN_END_DATE`,
`yesterday` is the rendered `datetime.now().date() - 1 day`, and `ts` is the
`datetime.now()` timestamp appended as `extracted_at`.  The first component
records the HTTP requests issued (their start/end parameters); the second is
the returned table or the raised error.  The trailing `print` of
`df['time'].min()` raises `KeyError` when the table has no `time` column. -/
def materialize (api : String → String → ApiResponse)
    (envStart envEnd : Option String) (yesterday : String) (ts : Json) :
    List (String × String) × Except WErr WTable :=
  let start_date := envStart.getD "2009-01-01"
  let end_date := effEnd (envEnd.getD "2026-12-31") yesterday
  ([(start_date, end_date)],
    match fetch_weather_data (api start_date end_date) with
    | .error e => .error e
    | .ok t =>
      let t' := withExtracted t ts
      if (t'.map Prod.fst).contains "time" then .ok t'
      else .error (.keyError "time"))

end WeatherRaw

/-! ## `stackoverflow-trends/assets/raw/stackoverflow_api_raw.py` -/

namespace StackRaw

/-- Module constant `START_YEAR`. -/
def START_YEAR : Nat := 2022

/-- Module constant `START_MONTH`. -/
def START_MONTH : Nat := 10

/-- Errors the monthly routine can raise: `httpError` is the `requests.HTTPError`
from `raise_for_status` (carrying the offending response); `keyError` is the
Python `KeyError` raised by `data["total"]` on a body without that key. -/
inductive SErr where
  | httpError (resp : ApiResponse)
  | keyError (k : String)

/-- `str(...)` of the raised exception: a `KeyError` displays only the repr of
the missing key (`"'total'"`); an `HTTPError` displays the status code line. -/
def SErr.message : SErr → String
  | .httpError resp => String.mk (natDigits resp.status) ++ " Error"
  | .keyError k => "\x27" ++ k ++ "\x27"

/-- `fetch_monthly_count(year, month)` as a function of the response the HTTP
layer produced for that month's request (the `fromdate`/`todate` UNIX-timestamp
parameters are a function of `(year, month)` via `calendar.monthrange`, so the
response is keyed on the pair): `raise_for_status`, then `data["total"]`,
returned as-is. -/
def fetch_monthly_count (resp : ApiResponse) : Except SErr Json :=
  if raisesForStatus resp.status then .error (.httpError resp)
  else
    match getKey? resp.body "total" with
    | none => .error (.keyError "total")
    | some v => .ok v

/-- `f"{year}-{month:02d}-01"`: the year unpadded, the month zero-padded. -/
def monthStr (y m : Nat) : String :=
  String.mk (natDigits y ++ ('-' :: (pad2 m ++ ['-', '0', '1'])))

/-- One appended row dict, in insertion order. -/
def mkRow (y m : Nat) (count : Json) : List (String × Json) :=
  [("month", .str (monthStr y m)), ("question_count", count),
   ("source", .str "stackexchange_api")]

/-- The loop increment: `month += 1; if month > 12: month = 1; year += 1`. -/
def nextYM (y m : Nat) : Nat × Nat :=
  if 12 < m + 1 then (y + 1, 1) else (y, m + 1)

/-- A row of the monthly table (a Python dict, row-oriented). -/
abbrev SERow := List (String × Json)

/-- The `while (year, month) <= (today.year, today.month)` loop, with explicit
fuel (`none` = fuel exhausted; termination with sufficient fuel is proved
below).  Returns the trace of months requested together with either the
accumulated rows or the first raised error, which aborts the loop (the fixed
`time.sleep(0.25)` between requests has no observable effect here). -/
def seLoopF (api : Nat → Nat → ApiResponse) (ty tm : Nat) :
    Nat → Nat → Nat → Option (List (Nat × Nat) × Except SErr (List SERow))
  | 0, _, _ => none
  | fuel + 1, year, month =>
    if year < ty ∨ (year = ty ∧ month ≤ tm) then
      match fetch_monthly_count (api year month) with
      | .error e => some ([(year, month)], .error e)
      | .ok count =>
        match seLoopF api ty tm fuel (nextYM year month).1 (nextYM year month).2 with
        | none => none
        | some (tr, res) =>
          some ((year, month) :: tr,
            match res with
            | .error e => .error e
            | .ok rest => .ok (mkRow year month count :: rest))
    else some ([], .ok [])

/-- Fuel that always suffices for the loop from `(START_YEAR, START_MONTH)`. -/
def seFuel (ty tm : Nat) : Nat := 12 * ty + tm + 1

/-- `materialize()` of the monthly Stack Exchange asset: loop over calendar
months from `(START_YEAR, START_MONTH)` through `(today.year, today.month)`
(= `(ty, tm)`), then `pd.DataFrame(rows)` and the broadcast
`df["extracted_at"] = datetime.now()` (= `ts`). -/
def materialize (api : Nat → Nat → ApiResponse) (ty tm : Nat) (ts : Json) :
    Option (List (Nat × Nat) × Except SErr (List SERow)) :=
  match seLoopF api ty tm (seFuel ty tm) START_YEAR START_MONTH with
  | none => none
  | some (tr, res) =>
    some (tr,
      match res with
      | .error e => .error e
      | .ok rows => .ok (rows.map (fun r => r ++ [("extracted_at", ts)])))

end StackRaw

/-! ## The external-API contract and test fixtures

The external services are collaborators, not code of this repository; claims
about the rows a run produces hold relative to the response contract the spec
records (one entry per requested unit, keyed by the request window). -/

namespace WeatherRaw

/-- Modelled from the spec: the Open-Meteo response contract for a request
window `[s, e]` — a JSON object whose `daily` member is an object of
equal-length arrays keyed by `time` plus the requested variables, the `time`
array holding the ISO dates of the window, one entry per day, and a 2xx status. -/
def ConformsW (s e : SDate) (resp : ApiResponse) : Prop :=
  200 ≤ resp.status ∧ resp.status < 300 ∧
  ∃ rest : List (String × List Json),
    rest.map Prod.fst = DAILY_VARIABLES ∧
    (∀ c ∈ rest, c.2.length = (daysInWindow s e).length) ∧
    getKey? resp.body "daily" =
      some (.obj ((("time", (daysInWindow s e).map (fun dt => Json.str dt.iso)) :: rest).map
        (fun c => (c.1, Json.arr c.2))))

/-- A stub response obeying `ConformsW s e`: every measurement is `0`. -/
def stubW (s e : SDate) : ApiResponse :=
  ⟨200, [("daily", .obj ((("time", (daysInWindow s e).map (fun dt => Json.str dt.iso)) ::
    DAILY_VARIABLES.map (fun v => (v, (daysInWindow s e).map (fun _ => Json.num 0)))).map
      (fun c => (c.1, Json.arr c.2))))]⟩

end WeatherRaw

namespace StackRaw

/-- Linearisation of a `(year, month)` pair; for `month ∈ 1..12` it orders the
pairs like Python's tuple comparison. -/
def monthIndex (y m : Nat) : Nat := 12 * y + m

/-- Python's `<` on `(year, month)` tuples: lexicographic. -/
def pairLt (p q : Nat × Nat) : Prop := p.1 < q.1 ∨ (p.1 = q.1 ∧ p.2 < q.2)

/-- The first `n` months starting at `(y, m)` in loop order. -/
def monthsFrom : Nat → Nat → Nat → List (Nat × Nat)
  | 0, _, _ => []
  | n + 1, y, m => (y, m) :: monthsFrom n (nextYM y m).1 (nextYM y m).2

/-- The calendar months the loop is specified to cover: from
`(START_YEAR, START_MONTH)` through `(ty, tm)` inclusive (empty when the
current month precedes the start). -/
def windowMonths (ty tm : Nat) : List (Nat × Nat) :=
  monthsFrom (monthIndex ty tm + 1 - monthIndex START_YEAR START_MONTH) START_YEAR START_MONTH

/-- The loop body unrolled a fixed number of times: request trace and result of
processing `n` months starting at `(y, m)`.  `seLoopF` with sufficient fuel
computes exactly this (proved below). -/
def buildMonths (api : Nat → Nat → ApiResponse) :
    Nat → Nat → Nat → List (Nat × Nat) × Except SErr (List SERow)
  | 0, _, _ => ([], .ok [])
  | n + 1, y, m =>
    match fetch_monthly_count (api y m) with
    | .error e => ([(y, m)], .error e)
    | .ok count =>
      let r := buildMonths api n (nextYM y m).1 (nextYM y m).2
      ((y, m) :: r.1,
        match r.2 with
        | .error e => .error e
        | .ok rest => .ok (mkRow y m count :: rest))

/-- A stub 2xx response with a `total` field. -/
def stubSE (n : Int) : ApiResponse := ⟨200, [("total", .num n)]⟩

end StackRaw

/-! ## Remaining definitions used by the statements -/

/-- In-range month and day fields (no year bound); preserved by `nextDay`,
unlike the four-digit year bound. -/
def SDate.ValidMD (dt : SDate) : Prop :=
  1 ≤ dt.m ∧ dt.m ≤ 12 ∧ 1 ≤ dt.d ∧ dt.d ≤ monthLen dt.y dt.m

/-- The weather table with the `extracted_at` column dropped (for comparing two
materializations apart from the extraction timestamp). -/
def WeatherRaw.dropExtracted (t : WeatherRaw.WTable) : WeatherRaw.WTable :=
  t.filter (fun c => c.1 != "extracted_at")

/-- A Stack Exchange row with the `extracted_at` entry dropped. -/
def StackRaw.dropExtractedRow (r : StackRaw.SERow) : StackRaw.SERow :=
  r.filter (fun c => c.1 != "extracted_at")

/-- The declared column names of the monthly Stack Exchange table. -/
def StackRaw.declaredCols : List String :=
  ["month", "question_count", "source", "extracted_at"]

/-- A string of the exact shape `YYYY-MM-01`: four year digits, a dash, a
zero-padded two-digit month between 01 and 12, then `-01`. -/
def StackRaw.isYYYYMM01 (s : String) : Prop :=
  ∃ y m, 1000 ≤ y ∧ y ≤ 9999 ∧ 1 ≤ m ∧ m ≤ 12 ∧
    s = String.mk (pad4 y ++ ('-' :: (pad2 m ++ ['-', '0', '1'])))

/-- A 2xx response with valid JSON whose object lacks the `total` key. -/
def StackRaw.respNoTotal : ApiResponse := ⟨200, [("items", .arr [])]⟩

/-- A 300 (Multiple Choices) response carrying a well-formed `daily` payload:
`requests` does not follow a 300 without a redirect location and
`raise_for_status` does not raise on it. -/
def WeatherRaw.resp300 : ApiResponse :=
  ⟨300, [("daily", .obj [("time", .arr [.str "2024-01-01"])])]⟩

/-- A 2xx response whose `daily` object carries an undeclared extra column. -/
def WeatherRaw.respExtraCol : ApiResponse :=
  ⟨200, [("daily", .obj [("time", .arr [.str "2024-01-01"]), ("bogus", .arr [.num 1])])]⟩

/-- A 2xx response whose `daily.time` array repeats a date. -/
def WeatherRaw.respDupTime : ApiResponse :=
  ⟨200, [("daily", .obj [("time", .arr [.str "2024-01-01", .str "2024-01-01"])])]⟩

/-! ## Lemmas: digits and lexicographic string comparison -/

lemma dch_lt_iff : ∀ a < 10, ∀ b < 10, (dch a < dch b ↔ a < b) := by decide

lemma dch_eq_iff : ∀ a < 10, ∀ b < 10, (dch a = dch b ↔ a = b) := by decide

lemma charListLtB_cons (a b : Char) (l1 l2 : List Char) :
    charListLtB (a :: l1) (b :: l2) =
      if a < b then true else if b < a then false else charListLtB l1 l2 := rfl

lemma charListLtB_irrefl : ∀ l : List Char, charListLtB l l = false := by
  intro l
  induction l with
  | nil => rfl
  | cons a as ih => rw [charListLtB_cons, if_neg (lt_irrefl a), if_neg (lt_irrefl a), ih]

lemma charListLtB_digit_cons (x y : Nat) (hx : x < 10) (hy : y < 10) (l1 l2 : List Char) :
    (charListLtB (dch x :: l1) (dch y :: l2) = true) ↔
      (x < y ∨ (x = y ∧ charListLtB l1 l2 = true)) := by
  rw [charListLtB_cons]
  rcases Nat.lt_trichotomy x y with h | h | h
  · rw [if_pos ((dch_lt_iff _ hx _ hy).mpr h)]
    simp [h]
  · subst h
    rw [if_neg (lt_irrefl _), if_neg (lt_irrefl _)]
    simp
  · have hn1 : ¬ dch x < dch y := fun hc => absurd ((dch_lt_iff _ hx _ hy).mp hc) (by omega)
    rw [if_neg hn1, if_pos ((dch_lt_iff _ hy _ hx).mpr h)]
    constructor
    · intro hc; exact absurd hc (by simp)
    · rintro (hlt | ⟨heq, _⟩)
      · exact absurd hlt (by omega)
      · exact absurd heq (by omega)

lemma pad2_block_lt (a b : Nat) (ha : a ≤ 99) (hb : b ≤ 99) (r1 r2 : List Char) :
    (charListLtB (pad2 a ++ r1) (pad2 b ++ r2) = true) ↔
      (a < b ∨ (a = b ∧ charListLtB r1 r2 = true)) := by
  show (charListLtB (dch (a / 10) :: dch (a % 10) :: r1)
      (dch (b / 10) :: dch (b % 10) :: r2) = true) ↔ _
  rw [charListLtB_digit_cons (a / 10) (b / 10) (by omega) (by omega)]
  rw [charListLtB_digit_cons (a % 10) (b % 10) (by omega) (by omega)]
  constructor
  · rintro (h | ⟨h1, h2 | ⟨h3, h4⟩⟩)
    · exact Or.inl (by omega)
    · exact Or.inl (by omega)
    · exact Or.inr ⟨by omega, h4⟩
  · rintro (h | ⟨h1, h2⟩)
    · rcases Nat.lt_or_ge (a / 10) (b / 10) with h' | h'
      · exact Or.inl h'
      · exact Or.inr ⟨by omega, Or.inl (by omega)⟩
    · exact Or.inr ⟨by omega, Or.inr ⟨by omega, h2⟩⟩

lemma pad4_eq_append (n : Nat) : pad4 n = pad2 (n / 100) ++ pad2 (n % 100) := by
  have e1 : n / 100 / 10 = n / 1000 := by omega
  have e2 : n % 100 / 10 = n / 10 % 10 := by omega
  have e3 : n % 100 % 10 = n % 10 := by omega
  simp only [pad4, pad2, List.cons_append, List.nil_append, e1, e2, e3]

lemma pad4_block_lt (a b : Nat) (ha : a ≤ 9999) (hb : b ≤ 9999) (r1 r2 : List Char) :
    (charListLtB (pad4 a ++ r1) (pad4 b ++ r2) = true) ↔
      (a < b ∨ (a = b ∧ charListLtB r1 r2 = true)) := by
  rw [pad4_eq_append a, pad4_eq_append b, List.append_assoc, List.append_assoc]
  rw [pad2_block_lt (a / 100) (b / 100) (by omega) (by omega)]
  rw [pad2_block_lt (a % 100) (b % 100) (by omega) (by omega)]
  constructor
  · rintro (h | ⟨h1, h2 | ⟨h3, h4⟩⟩)
    · exact Or.inl (by omega)
    · exact Or.inl (by omega)
    · exact Or.inr ⟨by omega, h4⟩
  · rintro (h | ⟨h1, h2⟩)
    · rcases Nat.lt_or_ge (a / 100) (b / 100) with h' | h'
      · exact Or.inl h'
      · exact Or.inr ⟨by omega, Or.inl (by omega)⟩
    · exact Or.inr ⟨by omega, Or.inr ⟨by omega, h2⟩⟩

lemma charListLtB_dash_cons (l1 l2 : List Char) :
    charListLtB ('-' :: l1) ('-' :: l2) = charListLtB l1 l2 := by
  rw [charListLtB_cons, if_neg (lt_irrefl _), if_neg (lt_irrefl _)]

/-- For dates with in-range fields, Python's lexicographic comparison of the
ISO renderings agrees with chronological (key) order. -/
lemma strLtB_iso_iff (a b : SDate) (ha1 : a.y ≤ 9999) (ha2 : a.m ≤ 99) (ha3 : a.d ≤ 99)
    (hb1 : b.y ≤ 9999) (hb2 : b.m ≤ 99) (hb3 : b.d ≤ 99) :
    (strLtB a.iso b.iso = true) ↔ a.key < b.key := by
  show (charListLtB a.isoChars b.isoChars = true) ↔ _
  unfold SDate.isoChars
  rw [pad4_block_lt _ _ ha1 hb1]
  rw [charListLtB_dash_cons]
  rw [pad2_block_lt _ _ ha2 hb2]
  rw [charListLtB_dash_cons]
  have hd := pad2_block_lt a.d b.d ha3 hb3 [] []
  rw [List.append_nil, List.append_nil] at hd
  rw [hd]
  have he : (charListLtB ([] : List Char) [] = true) ↔ False := by simp [charListLtB]
  rw [he]
  unfold SDate.key
  constructor
  · rintro (h | ⟨h1, h2 | ⟨h3, h4 | ⟨h5, h6⟩⟩⟩)
    · omega
    · omega
    · omega
    · exact h6.elim
  · intro h
    rcases Nat.lt_trichotomy a.y b.y with h1 | h1 | h1
    · exact Or.inl h1
    · rcases Nat.lt_trichotomy a.m b.m with h2 | h2 | h2
      · exact Or.inr ⟨h1, Or.inl h2⟩
      · exact Or.inr ⟨h1, Or.inr ⟨h2, Or.inl (by omega)⟩⟩
      · exact absurd h (by omega)
    · exact absurd h (by omega)

lemma strLtB_iso_false (a b : SDate) (ha1 : a.y ≤ 9999) (ha2 : a.m ≤ 99) (ha3 : a.d ≤ 99)
    (hb1 : b.y ≤ 9999) (hb2 : b.m ≤ 99) (hb3 : b.d ≤ 99) (h : b.key ≤ a.key) :
    strLtB a.iso b.iso = false := by
  cases hb : strLtB a.iso b.iso
  · rfl
  · exact absurd ((strLtB_iso_iff a b ha1 ha2 ha3 hb1 hb2 hb3).mp hb) (by omega)

lemma iso_ne_of_key_lt (a b : SDate) (ha1 : a.y ≤ 9999) (ha2 : a.m ≤ 99) (ha3 : a.d ≤ 99)
    (hb1 : b.y ≤ 9999) (hb2 : b.m ≤ 99) (hb3 : b.d ≤ 99) (h : a.key < b.key) :
    a.iso ≠ b.iso := by
  intro he
  have h1 : strLtB a.iso b.iso = true := (strLtB_iso_iff a b ha1 ha2 ha3 hb1 hb2 hb3).mpr h
  rw [he] at h1
  simp [strLtB, charListLtB_irrefl] at h1

lemma dch_inj (a b : Nat) (ha : a < 10) (hb : b < 10) (h : dch a = dch b) : a = b :=
  (dch_eq_iff _ ha _ hb).mp h

lemma pad2_inj (a b : Nat) (ha : a ≤ 99) (hb : b ≤ 99) (h : pad2 a = pad2 b) : a = b := by
  simp only [pad2, List.cons.injEq, and_true] at h
  have e1 := dch_inj _ _ (by omega) (by omega) h.1
  have e2 := dch_inj _ _ (by omega) (by omega) h.2
  omega

lemma pad4_inj (a b : Nat) (ha : a ≤ 9999) (hb : b ≤ 9999) (h : pad4 a = pad4 b) : a = b := by
  simp only [pad4, List.cons.injEq, and_true] at h
  have e1 := dch_inj _ _ (by omega) (by omega) h.1
  have e2 := dch_inj _ _ (by omega) (by omega) h.2.1
  have e3 := dch_inj _ _ (by omega) (by omega) h.2.2.1
  have e4 := dch_inj _ _ (by omega) (by omega) h.2.2.2
  omega

lemma natDigitsF_succ (f n : Nat) :
    natDigitsF (f + 1) n =
      if n < 10 then [dch n] else natDigitsF f (n / 10) ++ [dch (n % 10)] := rfl

lemma natDigitsF_small (f n : Nat) (hf : 1 ≤ f) (h : n < 10) : natDigitsF f n = [dch n] := by
  obtain ⟨f', rfl⟩ : ∃ f', f = f' + 1 := ⟨f - 1, by omega⟩
  rw [natDigitsF_succ, if_pos h]

lemma natDigitsF_two (f n : Nat) (hf : 2 ≤ f) (h1 : 10 ≤ n) (h2 : n ≤ 99) :
    natDigitsF f n = pad2 n := by
  obtain ⟨f', rfl⟩ : ∃ f', f = f' + 1 := ⟨f - 1, by omega⟩
  rw [natDigitsF_succ, if_neg (by omega), natDigitsF_small f' (n / 10) (by omega) (by omega)]
  rfl

lemma natDigitsF_four (f n : Nat) (hf : 4 ≤ f) (h1 : 1000 ≤ n) (h2 : n ≤ 9999) :
    natDigitsF f n = pad4 n := by
  obtain ⟨f', rfl⟩ : ∃ f', f = f' + 1 := ⟨f - 1, by omega⟩
  rw [natDigitsF_succ, if_neg (by omega)]
  obtain ⟨f2, rfl⟩ : ∃ f2, f' = f2 + 1 := ⟨f' - 1, by omega⟩
  rw [natDigitsF_succ, if_neg (by omega)]
  rw [natDigitsF_two f2 (n / 10 / 10) (by omega) (by omega) (by omega)]
  have e1 : n / 10 / 10 = n / 100 := by omega
  have e2 : n / 10 % 10 = n % 100 / 10 := by omega
  have e3 : n % 10 = n % 100 % 10 := by omega
  rw [pad4_eq_append, e1]
  simp only [pad2, List.append_assoc, List.cons_append, List.nil_append, e2, e3]

lemma natDigits_eq_pad4 (y : Nat) (h1 : 1000 ≤ y) (h2 : y ≤ 9999) : natDigits y = pad4 y :=
  natDigitsF_four (y + 1) y (by omega) h1 h2

/-! ## Lemmas: the calendar -/

lemma monthLen_ge_28 (y m : Nat) : 28 ≤ monthLen y m := by
  unfold monthLen
  split
  · split <;> omega
  · split <;> omega

lemma monthLen_le_31 (y m : Nat) : monthLen y m ≤ 31 := by
  unfold monthLen
  split
  · split <;> omega
  · split <;> omega

lemma SDate.validMD_mk (y m d : Nat) (h1 : 1 ≤ m) (h2 : m ≤ 12) (h3 : 1 ≤ d)
    (h4 : d ≤ monthLen y m) : SDate.ValidMD ⟨y, m, d⟩ := ⟨h1, h2, h3, h4⟩

lemma SDate.key_mk (y m d : Nat) : SDate.key ⟨y, m, d⟩ = y * 10000 + m * 100 + d := rfl

lemma nextDay_validMD (dt : SDate) (h : dt.ValidMD) : (nextDay dt).ValidMD := by
  obtain ⟨h1, h2, h3, h4⟩ := h
  unfold nextDay
  by_cases hc1 : dt.d < monthLen dt.y dt.m
  · rw [if_pos hc1]
    exact SDate.validMD_mk _ _ _ h1 h2 (by omega) (by omega)
  · rw [if_neg hc1]
    by_cases hc2 : dt.m < 12
    · rw [if_pos hc2]
      exact SDate.validMD_mk _ _ _ (by omega) (by omega) (by omega)
        (by have := monthLen_ge_28 dt.y (dt.m + 1); omega)
    · rw [if_neg hc2]
      exact SDate.validMD_mk _ _ _ (by omega) (by omega) (by omega)
        (by have := monthLen_ge_28 (dt.y + 1) 1; omega)

lemma nextDay_key_gt (dt : SDate) (h : dt.ValidMD) : dt.key < (nextDay dt).key := by
  obtain ⟨h1, h2, h3, h4⟩ := h
  have h5 := monthLen_le_31 dt.y dt.m
  unfold nextDay
  by_cases hc1 : dt.d < monthLen dt.y dt.m
  · rw [if_pos hc1]
    simp only [SDate.key]
    omega
  · rw [if_neg hc1]
    by_cases hc2 : dt.m < 12
    · rw [if_pos hc2]
      simp only [SDate.key]
      omega
    · rw [if_neg hc2]
      simp only [SDate.key]
      omega

lemma daysFrom_mem (fuel : Nat) : ∀ cur last : SDate, cur.ValidMD →
    ∀ x ∈ daysFrom fuel cur last, x.ValidMD ∧ cur.key ≤ x.key ∧ x.key ≤ last.key := by
  induction fuel with
  | zero => intro cur last _ x hx; simp [daysFrom] at hx
  | succ f ih =>
    intro cur last h x hx
    rw [daysFrom] at hx
    by_cases hc : cur.key ≤ last.key
    · rw [if_pos hc] at hx
      cases List.mem_cons.mp hx with
      | inl he => subst he; exact ⟨h, le_refl _, hc⟩
      | inr ht =>
        have hnext := nextDay_validMD cur h
        obtain ⟨hv, hk1, hk2⟩ := ih (nextDay cur) last hnext x ht
        exact ⟨hv, le_trans (le_of_lt (nextDay_key_gt cur h)) hk1, hk2⟩
    · rw [if_neg hc] at hx
      simp at hx

lemma daysFrom_pairwise (fuel : Nat) : ∀ cur last : SDate, cur.ValidMD →
    List.Pairwise (fun a b : SDate => a.key < b.key) (daysFrom fuel cur last) := by
  induction fuel with
  | zero => intro cur last _; simp [daysFrom]
  | succ f ih =>
    intro cur last h
    rw [daysFrom]
    by_cases hc : cur.key ≤ last.key
    · rw [if_pos hc]
      refine List.Pairwise.cons ?_ (ih (nextDay cur) last (nextDay_validMD cur h))
      intro x hx
      have hm := (daysFrom_mem f (nextDay cur) last (nextDay_validMD cur h) x hx).2.1
      have hg := nextDay_key_gt cur h
      omega
    · rw [if_neg hc]
      exact List.Pairwise.nil

lemma daysInWindow_empty (s e : SDate) (h : e.key < s.key) : daysInWindow s e = [] := by
  unfold daysInWindow
  have : e.key + 1 - s.key = 0 := by omega
  rw [this, daysFrom]

/-! ## Lemmas: the month loop -/

namespace StackRaw

lemma nextYM_index (y m : Nat) (h1 : 1 ≤ m) (h2 : m ≤ 12) :
    monthIndex (nextYM y m).1 (nextYM y m).2 = monthIndex y m + 1 := by
  unfold nextYM monthIndex
  by_cases hc : 12 < m + 1
  · rw [if_pos hc]
    show 12 * (y + 1) + 1 = 12 * y + m + 1
    omega
  · rw [if_neg hc]
    show 12 * y + (m + 1) = 12 * y + m + 1
    omega

lemma nextYM_bounds (y m : Nat) (_h1 : 1 ≤ m) (_h2 : m ≤ 12) :
    1 ≤ (nextYM y m).2 ∧ (nextYM y m).2 ≤ 12 ∧ y ≤ (nextYM y m).1 := by
  unfold nextYM
  by_cases hc : 12 < m + 1
  · rw [if_pos hc]
    exact ⟨le_refl 1, show (1 : Nat) ≤ 12 by omega, Nat.le_succ y⟩
  · rw [if_neg hc]
    exact ⟨Nat.succ_le_succ (Nat.zero_le m), Nat.le_of_not_lt hc, le_refl y⟩

lemma pairLt_of_index (y m y2 m2 : Nat) (hm2 : m2 ≤ 12)
    (h : monthIndex y m < monthIndex y2 m2) : pairLt (y, m) (y2, m2) := by
  unfold monthIndex at h
  unfold pairLt
  show y < y2 ∨ (y = y2 ∧ m < m2)
  rcases Nat.lt_trichotomy y y2 with h' | h' | h'
  · exact Or.inl h'
  · exact Or.inr ⟨h', by omega⟩
  · exact absurd h (by omega)

lemma monthsFrom_length : ∀ n y m : Nat, (monthsFrom n y m).length = n := by
  intro n
  induction n with
  | zero => intro y m; rfl
  | succ k ih => intro y m; simp [monthsFrom, ih]

lemma monthsFrom_mem (n : Nat) : ∀ y m : Nat, 1 ≤ m → m ≤ 12 →
    ∀ p ∈ monthsFrom n y m, 1 ≤ p.2 ∧ p.2 ≤ 12 ∧ y ≤ p.1 ∧
      monthIndex y m ≤ monthIndex p.1 p.2 ∧ monthIndex p.1 p.2 < monthIndex y m + n := by
  induction n with
  | zero => intro y m _ _ p hp; simp [monthsFrom] at hp
  | succ k ih =>
    intro y m h1 h2 p hp
    rw [monthsFrom] at hp
    cases List.mem_cons.mp hp with
    | inl he =>
      subst he
      refine ⟨h1, h2, le_refl y, le_refl _, ?_⟩
      show monthIndex y m < monthIndex y m + (k + 1)
      omega
    | inr ht =>
      obtain ⟨b1, b2, b3⟩ := nextYM_bounds y m h1 h2
      have hidx := nextYM_index y m h1 h2
      obtain ⟨c1, c2, c3, c4, c5⟩ := ih (nextYM y m).1 (nextYM y m).2 b1 b2 p ht
      exact ⟨c1, c2, by omega, by omega, by omega⟩

lemma monthsFrom_pairwise (n : Nat) : ∀ y m : Nat, 1 ≤ m → m ≤ 12 →
    List.Pairwise pairLt (monthsFrom n y m) := by
  induction n with
  | zero => intro y m _ _; exact List.Pairwise.nil
  | succ k ih =>
    intro y m h1 h2
    rw [monthsFrom]
    obtain ⟨b1, b2, b3⟩ := nextYM_bounds y m h1 h2
    have hidx := nextYM_index y m h1 h2
    refine List.Pairwise.cons ?_ (ih _ _ b1 b2)
    intro q hq
    obtain ⟨c1, c2, c3, c4, c5⟩ := monthsFrom_mem k _ _ b1 b2 q hq
    have hlt : monthIndex y m < monthIndex q.1 q.2 := by omega
    exact pairLt_of_index y m q.1 q.2 c2 hlt

lemma seLoopF_eq_buildMonths (api : Nat → Nat → ApiResponse) (ty tm : Nat)
    (ht1 : 1 ≤ tm) (ht2 : tm ≤ 12) :
    ∀ fuel n y m, 1 ≤ m → m ≤ 12 → n = monthIndex ty tm + 1 - monthIndex y m → n < fuel →
      seLoopF api ty tm fuel y m = some (buildMonths api n y m) := by
  intro fuel
  induction fuel with
  | zero => intro n y m _ _ _ hn; exact absurd hn (by omega)
  | succ f ih =>
    intro n y m hm1 hm2 hn hfuel
    rw [seLoopF]
    by_cases hg : y < ty ∨ (y = ty ∧ m ≤ tm)
    · rw [if_pos hg]
      have hidxle : monthIndex y m ≤ monthIndex ty tm := by
        unfold monthIndex
        rcases hg with hg | ⟨hg, hg2⟩ <;> omega
      obtain ⟨k, rfl⟩ : ∃ k, n = k + 1 := ⟨n - 1, by omega⟩
      rw [buildMonths]
      cases hfc : fetch_monthly_count (api y m) with
      | error e => rfl
      | ok count =>
        obtain ⟨b1, b2, b3⟩ := nextYM_bounds y m hm1 hm2
        have hidx := nextYM_index y m hm1 hm2
        have hrec := ih k (nextYM y m).1 (nextYM y m).2 b1 b2 (by omega) (by omega)
        rcases hbm : buildMonths api k (nextYM y m).1 (nextYM y m).2 with ⟨tr, res⟩
        rw [hbm] at hrec
        rw [hrec]
    · rw [if_neg hg]
      have hgt : monthIndex ty tm < monthIndex y m := by
        unfold monthIndex
        by_cases he : y = ty
        · subst he
          have hnle : ¬ (m ≤ tm) := fun hc => hg (Or.inr ⟨rfl, hc⟩)
          omega
        · have h3 : ¬ (y < ty) := fun hc => hg (Or.inl hc)
          omega
      have hn0 : n = 0 := by omega
      subst hn0
      rfl

end StackRaw

namespace StackRaw

lemma buildMonths_allok (api : Nat → Nat → ApiResponse) (cnt : Nat → Nat → Json)
    (hok : ∀ y m, fetch_monthly_count (api y m) = .ok (cnt y m)) :
    ∀ n y m, buildMonths api n y m =
      (monthsFrom n y m,
        .ok ((monthsFrom n y m).map (fun p => mkRow p.1 p.2 (cnt p.1 p.2)))) := by
  intro n
  induction n with
  | zero => intro y m; rfl
  | succ k ih =>
    intro y m
    rw [buildMonths, hok y m, ih, monthsFrom]
    rfl

lemma buildMonths_error (api : Nat → Nat → ApiResponse) :
    ∀ n y m, ∀ p ∈ monthsFrom n y m,
      (∃ e0, fetch_monthly_count (api p.1 p.2) = .error e0) →
      ∃ e, (buildMonths api n y m).2 = .error e := by
  intro n
  induction n with
  | zero => intro y m p hp; simp [monthsFrom] at hp
  | succ k ih =>
    intro y m p hp he
    rw [monthsFrom] at hp
    cases List.mem_cons.mp hp with
    | inl hpe =>
      obtain ⟨e0, he0⟩ := he
      have e1 : p.1 = y := by rw [hpe]
      have e2 : p.2 = m := by rw [hpe]
      rw [e1, e2] at he0
      rw [buildMonths, he0]
      exact ⟨e0, rfl⟩
    | inr hpt =>
      cases hfc : fetch_monthly_count (api y m) with
      | error e1 =>
        rw [buildMonths, hfc]
        exact ⟨e1, rfl⟩
      | ok count =>
        obtain ⟨e, he2⟩ := ih (nextYM y m).1 (nextYM y m).2 p hpt he
        rw [buildMonths, hfc]
        rcases hbm : buildMonths api k (nextYM y m).1 (nextYM y m).2 with ⟨tr, res⟩
        rw [hbm] at he2
        have hres : res = .error e := he2
        subst hres
        exact ⟨e, rfl⟩

lemma seLoopF_rows_shape (api : Nat → Nat → ApiResponse) (ty tm : Nat) :
    ∀ fuel y m tr res rows,
      seLoopF api ty tm fuel y m = some (tr, res) → res = .ok rows →
      ∀ r ∈ rows, ∃ y2 m2 c, r = mkRow y2 m2 c := by
  intro fuel
  induction fuel with
  | zero => intro y m tr res rows h; simp [seLoopF] at h
  | succ f ih =>
    intro y m tr res rows h hres r hr
    rw [seLoopF] at h
    by_cases hg : y < ty ∨ (y = ty ∧ m ≤ tm)
    · rw [if_pos hg] at h
      cases hfc : fetch_monthly_count (api y m) with
      | error e =>
        rw [hfc] at h
        simp only [Option.some.injEq, Prod.mk.injEq] at h
        rw [← h.2] at hres
        simp at hres
      | ok count =>
        rw [hfc] at h
        cases hlp : seLoopF api ty tm f (nextYM y m).1 (nextYM y m).2 with
        | none => rw [hlp] at h; simp at h
        | some pr =>
          rcases pr with ⟨tr2, res2⟩
          rw [hlp] at h
          simp only [Option.some.injEq, Prod.mk.injEq] at h
          cases res2 with
          | error e2 =>
            rw [← h.2] at hres
            simp at hres
          | ok rest =>
            rw [← h.2] at hres
            simp only [Except.ok.injEq] at hres
            subst hres
            cases List.mem_cons.mp hr with
            | inl he => exact ⟨y, m, count, he⟩
            | inr ht =>
              exact ih (nextYM y m).1 (nextYM y m).2 tr2 (.ok rest) rest hlp rfl r ht
    · rw [if_neg hg] at h
      simp only [Option.some.injEq, Prod.mk.injEq] at h
      rw [← h.2] at hres
      simp only [Except.ok.injEq] at hres
      subst hres
      simp at hr

lemma seLoopF_materialize_fuel (api : Nat → Nat → ApiResponse) (ty tm : Nat)
    (ht1 : 1 ≤ tm) (ht2 : tm ≤ 12) :
    seLoopF api ty tm (seFuel ty tm) START_YEAR START_MONTH =
      some (buildMonths api (monthIndex ty tm + 1 - monthIndex START_YEAR START_MONTH)
        START_YEAR START_MONTH) :=
  seLoopF_eq_buildMonths api ty tm ht1 ht2 (seFuel ty tm)
    (monthIndex ty tm + 1 - monthIndex START_YEAR START_MONTH) START_YEAR START_MONTH
    (by decide) (by decide) rfl
    (by unfold seFuel monthIndex START_YEAR START_MONTH; omega)

lemma materialize_allok (api : Nat → Nat → ApiResponse) (cnt : Nat → Nat → Json)
    (hok : ∀ y m, fetch_monthly_count (api y m) = .ok (cnt y m)) (ty tm : Nat) (ts : Json)
    (ht1 : 1 ≤ tm) (ht2 : tm ≤ 12) :
    materialize api ty tm ts =
      some (windowMonths ty tm,
        .ok ((windowMonths ty tm).map
          (fun p => mkRow p.1 p.2 (cnt p.1 p.2) ++ [("extracted_at", ts)]))) := by
  unfold materialize
  rw [seLoopF_materialize_fuel api ty tm ht1 ht2]
  rw [buildMonths_allok api cnt hok _ START_YEAR START_MONTH]
  unfold windowMonths
  simp only [List.map_map]
  rfl

lemma materialize_error (api : Nat → Nat → ApiResponse) (ty tm : Nat) (ts : Json)
    (ht1 : 1 ≤ tm) (ht2 : tm ≤ 12) (p : Nat × Nat) (hp : p ∈ windowMonths ty tm)
    (he : ∃ e0, fetch_monthly_count (api p.1 p.2) = .error e0) :
    ∃ tr e, materialize api ty tm ts = some (tr, .error e) := by
  unfold materialize
  rw [seLoopF_materialize_fuel api ty tm ht1 ht2]
  unfold windowMonths at hp
  obtain ⟨e, he2⟩ := buildMonths_error api _ START_YEAR START_MONTH p hp he
  rcases hbm : buildMonths api (monthIndex ty tm + 1 - monthIndex START_YEAR START_MONTH)
    START_YEAR START_MONTH with ⟨tr, res⟩
  rw [hbm] at he2
  have hres : res = .error e := he2
  subst hres
  exact ⟨tr, e, rfl⟩

end StackRaw

/-! ## Lemmas: the weather routine -/

namespace WeatherRaw

lemma colsOfFields_map (cols : List (String × List Json)) :
    colsOfFields (cols.map (fun c => (c.1, Json.arr c.2))) = some cols := by
  induction cols with
  | nil => rfl
  | cons c rest ih =>
    rcases c with ⟨k, xs⟩
    simp [colsOfFields, ih]

lemma fetch_conform (s e : SDate) (resp : ApiResponse) (h : ConformsW s e resp) :
    ∃ rest, fetch_weather_data resp =
      .ok (("time", (daysInWindow s e).map (fun dt => Json.str dt.iso)) :: rest) ∧
      rest.map Prod.fst = DAILY_VARIABLES ∧
      (∀ c ∈ rest, c.2.length = (daysInWindow s e).length) := by
  obtain ⟨h1, h2, rest, hmap, hlen, hget⟩ := h
  refine ⟨rest, ?_, hmap, hlen⟩
  unfold fetch_weather_data
  have hrs : raisesForStatus resp.status = false := by
    simp only [raisesForStatus, Bool.and_eq_false_iff, decide_eq_false_iff_not]
    exact Or.inl (by omega)
  have hall : (((("time", (daysInWindow s e).map (fun dt => Json.str dt.iso)) :: rest).all
      (fun c => c.2.length == nRows (("time", (daysInWindow s e).map
        (fun dt => Json.str dt.iso)) :: rest))) = true) := by
    rw [List.all_eq_true]
    intro c hc
    cases List.mem_cons.mp hc with
    | inl he => subst he; simp [nRows]
    | inr ht =>
      have := hlen c ht
      simp [nRows, this]
  rw [hget, hrs]
  simp only [Bool.false_eq_true, if_false]
  unfold toTable
  simp only [colsOfFields_map, hall, if_true]

lemma daysInWindow_iso_nodup (s e : SDate) (hs : s.ValidMD) (he : e.Valid) :
    ((daysInWindow s e).map (fun dt => Json.str dt.iso)).Nodup := by
  have hp := daysFrom_pairwise (e.key + 1 - s.key) s e hs
  show List.Pairwise _ _
  rw [List.pairwise_map]
  refine List.Pairwise.imp_of_mem ?_ hp
  intro a b ha hb hr
  obtain ⟨hav, hak1, hak2⟩ := daysFrom_mem _ s e hs a ha
  obtain ⟨hbv, hbk1, hbk2⟩ := daysFrom_mem _ s e hs b hb
  obtain ⟨he1, he2, he3, he4, he5⟩ := he
  obtain ⟨ha1, ha2, ha3, ha4⟩ := hav
  obtain ⟨hb1, hb2, hb3, hb4⟩ := hbv
  have hle31a := monthLen_le_31 a.y a.m
  have hle31b := monthLen_le_31 b.y b.m
  have hle31e := monthLen_le_31 e.y e.m
  unfold SDate.key at hak2 hbk2
  have hay : a.y ≤ 9999 := by omega
  have hby : b.y ≤ 9999 := by omega
  intro hjeq
  have hiso : a.iso = b.iso := by injection hjeq
  exact iso_ne_of_key_lt a b hay (by omega) (by omega) hby (by omega) (by omega) hr hiso

end WeatherRaw

namespace StackRaw

lemma materialize_first_error (api : Nat → Nat → ApiResponse) (ty tm : Nat) (ts : Json)
    (ht1 : 1 ≤ tm) (ht2 : tm ≤ 12)
    (hge : monthIndex START_YEAR START_MONTH ≤ monthIndex ty tm) (e0 : SErr)
    (he : fetch_monthly_count (api START_YEAR START_MONTH) = .error e0) :
    materialize api ty tm ts = some ([(START_YEAR, START_MONTH)], .error e0) := by
  unfold materialize
  rw [seLoopF_materialize_fuel api ty tm ht1 ht2]
  obtain ⟨k, hk⟩ : ∃ k, monthIndex ty tm + 1 - monthIndex START_YEAR START_MONTH = k + 1 :=
    ⟨monthIndex ty tm - monthIndex START_YEAR START_MONTH, by omega⟩
  rw [hk, buildMonths, he]

end StackRaw

/-! ## The claims -/

/-- Claim C1, counterexample to the claim as stated: the Stack Exchange routine's
response `{"items": []}` is valid JSON, lacks the `total` key, and `fetch`
signals the `KeyError('total')` raised by `data["total"]` — but that error's
message is just `'total'`; it does not include the offending response body. -/
theorem C1_counterexample :
    StackRaw.fetch_monthly_count StackRaw.respNoTotal =
      .error (.keyError "total") ∧
    ¬ ((pyRepr (Json.obj StackRaw.respNoTotal.body)).data <:+:
        ((StackRaw.SErr.keyError "total").message).data) := by
  constructor
  · rfl
  · decide

/-- Claim C1 (amended): for every 2xx response whose valid-JSON body lacks the
expected top-level key, `fetch` signals a schema error distinct from a transport
failure and the routine produces no output table; the weather routine's
`ValueError` message includes the offending response body, while the Stack
Exchange routine's `KeyError` message names only the missing key `'total'`. -/
theorem C1_theorem (resp respSE : ApiResponse)
    (h1 : 200 ≤ resp.status) (h2 : resp.status < 300)
    (hnod : getKey? resp.body "daily" = none)
    (h3 : 200 ≤ respSE.status) (h4 : respSE.status < 300)
    (hnot : getKey? respSE.body "total" = none)
    (envStart envEnd : Option String) (yesterday : String) (ts : Json)
    (ty tm : Nat) (ht1 : 1 ≤ tm) (ht2 : tm ≤ 12)
    (hge : StackRaw.monthIndex StackRaw.START_YEAR StackRaw.START_MONTH ≤
      StackRaw.monthIndex ty tm) :
    ∃ msg : String,
      WeatherRaw.fetch_weather_data resp = .error (.schemaError msg) ∧
      (pyRepr (.obj resp.body)).data <:+: msg.data ∧
      (∀ r, WeatherRaw.WErr.schemaError msg ≠ WeatherRaw.WErr.httpError r) ∧
      (WeatherRaw.materialize (fun _ _ => resp) envStart envEnd yesterday ts).2 =
        .error (.schemaError msg) ∧
      StackRaw.fetch_monthly_count respSE = .error (.keyError "total") ∧
      (StackRaw.SErr.keyError "total").message = "\x27total\x27" ∧
      (∀ r, StackRaw.SErr.keyError "total" ≠ StackRaw.SErr.httpError r) ∧
      StackRaw.materialize (fun _ _ => respSE) ty tm ts =
        some ([(StackRaw.START_YEAR, StackRaw.START_MONTH)], .error (.keyError "total")) := by
  have hrs : raisesForStatus resp.status = false := by
    simp only [raisesForStatus, Bool.and_eq_false_iff, decide_eq_false_iff_not]
    exact Or.inl (by omega)
  have hrs2 : raisesForStatus respSE.status = false := by
    simp only [raisesForStatus, Bool.and_eq_false_iff, decide_eq_false_iff_not]
    exact Or.inl (by omega)
  have hfetch : WeatherRaw.fetch_weather_data resp =
      .error (.schemaError ("Unexpected API response: missing \x27daily\x27 key. Response: " ++
        pyRepr (.obj resp.body))) := by
    unfold WeatherRaw.fetch_weather_data
    rw [hnod, hrs]
    simp only [Bool.false_eq_true, if_false]
  have hfse : StackRaw.fetch_monthly_count respSE = .error (.keyError "total") := by
    unfold StackRaw.fetch_monthly_count
    rw [hnot, hrs2]
    simp only [Bool.false_eq_true, if_false]
  refine ⟨_, hfetch, ?_, ?_, ?_, hfse, rfl, ?_, ?_⟩
  · rw [String.data_append]
    exact (List.suffix_append _ _).isInfix
  · intro r h
    exact WeatherRaw.WErr.noConfusion h
  · unfold WeatherRaw.materialize
    dsimp only
    rw [hfetch]
  · intro r h
    exact StackRaw.SErr.noConfusion h
  · exact StackRaw.materialize_first_error _ ty tm ts ht1 ht2 hge _ hfse

/-- Claim C1 witness: the amended statement instantiated at concrete responses
lacking the expected keys. -/
theorem C1_witness :
    (200 ≤ (⟨200, []⟩ : ApiResponse).status ∧
      getKey? (⟨200, []⟩ : ApiResponse).body "daily" = none ∧
      getKey? StackRaw.respNoTotal.body "total" = none) ∧
    ∃ msg : String,
      WeatherRaw.fetch_weather_data ⟨200, []⟩ = .error (.schemaError msg) ∧
      (pyRepr (.obj (⟨200, []⟩ : ApiResponse).body)).data <:+: msg.data ∧
      (∀ r, WeatherRaw.WErr.schemaError msg ≠ WeatherRaw.WErr.httpError r) ∧
      (WeatherRaw.materialize (fun _ _ => (⟨200, []⟩ : ApiResponse)) none none "2026-10-11"
        (.num 0)).2 = .error (.schemaError msg) ∧
      StackRaw.fetch_monthly_count StackRaw.respNoTotal = .error (.keyError "total") ∧
      (StackRaw.SErr.keyError "total").message = "\x27total\x27" ∧
      (∀ r, StackRaw.SErr.keyError "total" ≠ StackRaw.SErr.httpError r) ∧
      StackRaw.materialize (fun _ _ => StackRaw.respNoTotal) 2022 11 (.num 0) =
        some ([(StackRaw.START_YEAR, StackRaw.START_MONTH)], .error (.keyError "total")) :=
  ⟨⟨by decide, rfl, rfl⟩,
    C1_theorem ⟨200, []⟩ StackRaw.respNoTotal (by decide) (by decide) rfl
      (by decide) (by decide) rfl none none "2026-10-11" (.num 0) 2022 11
      (by decide) (by decide) (by decide)⟩

/-- Claim C4 (confirmed): with the window and the API responses fixed, two runs
of `materialize()` differ at most in the `extracted_at` column: the issued
requests are identical and the tables with `extracted_at` dropped are equal,
for both routines. -/
theorem C4_theorem (api : String → String → ApiResponse) (api2 : Nat → Nat → ApiResponse)
    (envStart envEnd : Option String) (yesterday : String) (ty tm : Nat) (ts1 ts2 : Json) :
    ((WeatherRaw.materialize api envStart envEnd yesterday ts1).1 =
      (WeatherRaw.materialize api envStart envEnd yesterday ts2).1) ∧
    ((WeatherRaw.materialize api envStart envEnd yesterday ts1).2.map WeatherRaw.dropExtracted =
      (WeatherRaw.materialize api envStart envEnd yesterday ts2).2.map WeatherRaw.dropExtracted) ∧
    ((StackRaw.materialize api2 ty tm ts1).map
        (fun p => (p.1, p.2.map (List.map StackRaw.dropExtractedRow))) =
      (StackRaw.materialize api2 ty tm ts2).map
        (fun p => (p.1, p.2.map (List.map StackRaw.dropExtractedRow)))) := by
  refine ⟨rfl, ?_, ?_⟩
  · unfold WeatherRaw.materialize
    dsimp only
    cases hf : WeatherRaw.fetch_weather_data
        (api (envStart.getD "2009-01-01")
          (WeatherRaw.effEnd (envEnd.getD "2026-12-31") yesterday)) with
    | error e => rfl
    | ok t =>
      dsimp only
      have hcond : ((WeatherRaw.withExtracted t ts1).map Prod.fst).contains "time" =
          ((WeatherRaw.withExtracted t ts2).map Prod.fst).contains "time" := by
        simp [WeatherRaw.withExtracted]
      rw [hcond]
      by_cases hc : ((WeatherRaw.withExtracted t ts2).map Prod.fst).contains "time" = true
      · rw [if_pos hc, if_pos hc]
        simp [Except.map, WeatherRaw.dropExtracted, WeatherRaw.withExtracted,
          List.filter_append]
      · rw [if_neg hc, if_neg hc]
  · unfold StackRaw.materialize
    cases hlp : StackRaw.seLoopF api2 ty tm (StackRaw.seFuel ty tm)
        StackRaw.START_YEAR StackRaw.START_MONTH with
    | none => rfl
    | some pr =>
      rcases pr with ⟨tr, res⟩
      cases res with
      | error e => rfl
      | ok rows =>
        simp [Except.map, StackRaw.dropExtractedRow, List.filter_append, List.map_map,
          Function.comp]

/-- Claim C2 (confirmed): if the requested end date is strictly after yesterday,
the effective end date `materialize` passes to `fetch` is exactly yesterday; an
end date on or before yesterday is passed through unchanged; and, with the API
honouring the request window, every `time` value of the returned table is the
ISO rendering of a date strictly before today (= yesterday + 1 day), so rows
keyed on today or a future date never appear. -/
theorem C2_theorem (api : String → String → ApiResponse) (s yd ed : SDate) (ts : Json)
    (hs : s.Valid) (hy : yd.Valid) (he : ed.Valid)
    (hconf : WeatherRaw.ConformsW s (if yd.key < ed.key then yd else ed)
      (api s.iso (if yd.key < ed.key then yd else ed).iso)) :
    (yd.key < ed.key →
      (WeatherRaw.materialize api (some s.iso) (some ed.iso) yd.iso ts).1 =
        [(s.iso, yd.iso)]) ∧
    (ed.key ≤ yd.key →
      (WeatherRaw.materialize api (some s.iso) (some ed.iso) yd.iso ts).1 =
        [(s.iso, ed.iso)]) ∧
    ∃ t, (WeatherRaw.materialize api (some s.iso) (some ed.iso) yd.iso ts).2 = .ok t ∧
      ∃ times, List.lookup "time" t = some times ∧
        (∀ x ∈ times, ∃ dt : SDate, x = Json.str dt.iso ∧ dt.key < (nextDay yd).key) ∧
        (∀ dt : SDate, dt.y ≤ 9999 → dt.m ≤ 99 → dt.d ≤ 99 →
          (nextDay yd).key ≤ dt.key → ¬ (Json.str dt.iso ∈ times)) := by
  obtain ⟨hy1, hy2, hy3, hy4, hy5⟩ := hy
  obtain ⟨he1, he2, he3, he4, he5⟩ := he
  have hly := monthLen_le_31 yd.y yd.m
  have hle := monthLen_le_31 ed.y ed.m
  have heffstr : WeatherRaw.effEnd ed.iso yd.iso =
      (if yd.key < ed.key then yd else ed).iso := by
    unfold WeatherRaw.effEnd
    by_cases h : yd.key < ed.key
    · rw [if_pos ((strLtB_iso_iff yd ed hy5 (by omega) (by omega) he5 (by omega)
        (by omega)).mpr h), if_pos h]
    · have hf : strLtB yd.iso ed.iso = false :=
        strLtB_iso_false yd ed hy5 (by omega) (by omega) he5 (by omega) (by omega) (by omega)
      rw [if_neg (by rw [hf]; simp), if_neg h]
  have heffkey : (if yd.key < ed.key then yd else ed).key ≤ yd.key := by
    by_cases h : yd.key < ed.key
    · rw [if_pos h]
    · rw [if_neg h]; omega
  obtain ⟨rest, hfetch, hmap, hlen⟩ :=
    WeatherRaw.fetch_conform s (if yd.key < ed.key then yd else ed) _ hconf
  have hsmd : s.ValidMD := ⟨hs.1, hs.2.1, hs.2.2.1, hs.2.2.2.1⟩
  have hnext := nextDay_key_gt yd ⟨hy1, hy2, hy3, hy4⟩
  refine ⟨?_, ?_, ?_⟩
  · intro h
    show [(s.iso, WeatherRaw.effEnd ((some ed.iso).getD "2026-12-31") yd.iso)] = _
    rw [Option.getD_some, heffstr, if_pos h]
  · intro h
    show [(s.iso, WeatherRaw.effEnd ((some ed.iso).getD "2026-12-31") yd.iso)] = _
    rw [Option.getD_some, heffstr, if_neg (by omega)]
  · unfold WeatherRaw.materialize
    dsimp only [Option.getD_some]
    rw [heffstr, hfetch]
    dsimp only
    rw [if_pos (by simp [WeatherRaw.withExtracted])]
    refine ⟨_, rfl, ?_⟩
    refine ⟨(daysInWindow s (if yd.key < ed.key then yd else ed)).map
      (fun dt => Json.str dt.iso), ?_, ?_, ?_⟩
    · simp [WeatherRaw.withExtracted, List.lookup]
    · intro x hx
      obtain ⟨dt, hdt, rfl⟩ := List.mem_map.mp hx
      obtain ⟨hv, hk1, hk2⟩ :=
        daysFrom_mem _ s (if yd.key < ed.key then yd else ed) hsmd dt hdt
      exact ⟨dt, rfl, by omega⟩
    · intro dt hb1 hb2 hb3 hge hmem
      obtain ⟨dt2, hdt2, heq⟩ := List.mem_map.mp hmem
      obtain ⟨hv2, hk21, hk22⟩ :=
        daysFrom_mem _ s (if yd.key < ed.key then yd else ed) hsmd dt2 hdt2
      obtain ⟨hv21, hv22, hv23, hv24⟩ := hv2
      have hml2 := monthLen_le_31 dt2.y dt2.m
      have heffk2 : (if yd.key < ed.key then yd else ed).key ≤ yd.key := heffkey
      have hy2b : dt2.y ≤ 9999 := by
        unfold SDate.key at hk22 heffk2
        omega
      have hklt : dt2.key < dt.key := by omega
      have hne := iso_ne_of_key_lt dt2 dt hy2b (by omega) (by omega) hb1 hb2 hb3 hklt
      have hiso : dt2.iso = dt.iso := by injection heq
      exact hne hiso

/-- Claim C2 witness: the clamping statement at a concrete window (start
2024-01-01, requested end 2024-12-31, yesterday 2024-01-03) against the
conforming stub response. -/
theorem C2_witness :
    ((⟨2024, 1, 1⟩ : SDate).Valid ∧ (⟨2024, 1, 3⟩ : SDate).Valid ∧
      (⟨2024, 12, 31⟩ : SDate).Valid) ∧
    (((⟨2024, 1, 3⟩ : SDate).key < (⟨2024, 12, 31⟩ : SDate).key →
      (WeatherRaw.materialize (fun _ _ => WeatherRaw.stubW ⟨2024, 1, 1⟩ ⟨2024, 1, 3⟩)
        (some (⟨2024, 1, 1⟩ : SDate).iso) (some (⟨2024, 12, 31⟩ : SDate).iso)
        (⟨2024, 1, 3⟩ : SDate).iso (.num 0)).1 =
          [((⟨2024, 1, 1⟩ : SDate).iso, (⟨2024, 1, 3⟩ : SDate).iso)]) ∧
    ((⟨2024, 12, 31⟩ : SDate).key ≤ (⟨2024, 1, 3⟩ : SDate).key →
      (WeatherRaw.materialize (fun _ _ => WeatherRaw.stubW ⟨2024, 1, 1⟩ ⟨2024, 1, 3⟩)
        (some (⟨2024, 1, 1⟩ : SDate).iso) (some (⟨2024, 12, 31⟩ : SDate).iso)
        (⟨2024, 1, 3⟩ : SDate).iso (.num 0)).1 =
          [((⟨2024, 1, 1⟩ : SDate).iso, (⟨2024, 12, 31⟩ : SDate).iso)]) ∧
    ∃ t, (WeatherRaw.materialize (fun _ _ => WeatherRaw.stubW ⟨2024, 1, 1⟩ ⟨2024, 1, 3⟩)
        (some (⟨2024, 1, 1⟩ : SDate).iso) (some (⟨2024, 12, 31⟩ : SDate).iso)
        (⟨2024, 1, 3⟩ : SDate).iso (.num 0)).2 = .ok t ∧
      ∃ times, List.lookup "time" t = some times ∧
        (∀ x ∈ times, ∃ dt : SDate, x = Json.str dt.iso ∧
          dt.key < (nextDay ⟨2024, 1, 3⟩).key) ∧
        (∀ dt : SDate, dt.y ≤ 9999 → dt.m ≤ 99 → dt.d ≤ 99 →
          (nextDay ⟨2024, 1, 3⟩).key ≤ dt.key → ¬ (Json.str dt.iso ∈ times))) :=
  ⟨⟨by decide, by decide, by decide⟩,
    C2_theorem (fun _ _ => WeatherRaw.stubW ⟨2024, 1, 1⟩ ⟨2024, 1, 3⟩)
      ⟨2024, 1, 1⟩ ⟨2024, 1, 3⟩ ⟨2024, 12, 31⟩ (.num 0)
      (by decide) (by decide) (by decide)
      ⟨by decide, by decide,
        WeatherRaw.DAILY_VARIABLES.map
          (fun v => (v, (daysInWindow ⟨2024, 1, 1⟩ ⟨2024, 1, 3⟩).map (fun _ => Json.num 0))),
        by decide, by decide, rfl⟩⟩

/-- Claim C5, counterexample to the claim as stated: with `BRUIN_START_DATE`
2024-05-01, `BRUIN_END_DATE` 2024-04-01 and yesterday 2024-05-31, the clamping
step leaves the window unchanged and `materialize` issues the request with an
effective end date strictly before the start date — `start ≤ end` does not hold
after clamping (the code never compares the two). -/
theorem C5_counterexample :
    (WeatherRaw.materialize (fun _ _ => WeatherRaw.stubW ⟨2024, 5, 1⟩ ⟨2024, 4, 1⟩)
      (some "2024-05-01") (some "2024-04-01") "2024-05-31" (.num 0)).1 =
      [("2024-05-01", "2024-04-01")] ∧
    (⟨2024, 5, 1⟩ : SDate).iso = "2024-05-01" ∧
    (⟨2024, 4, 1⟩ : SDate).iso = "2024-04-01" ∧
    (⟨2024, 5, 1⟩ : SDate).Valid ∧ (⟨2024, 4, 1⟩ : SDate).Valid ∧
    (⟨2024, 4, 1⟩ : SDate).key < (⟨2024, 5, 1⟩ : SDate).key :=
  ⟨rfl, by decide, by decide, by decide, by decide, by decide⟩

/-- Claim C5 (amended): clamping does not establish `start ≤ end`; what holds is
that whenever the effective end date is before the start date the window is
empty and the routine produces a zero-row table (the conforming API returns an
empty `daily` block for an empty window). -/
theorem C5_theorem (api : String → String → ApiResponse) (s e yd : SDate) (ts : Json)
    (_hs : s.Valid) (he : e.Valid) (hy : yd.Valid)
    (hconf : WeatherRaw.ConformsW s (if yd.key < e.key then yd else e)
      (api s.iso (if yd.key < e.key then yd else e).iso))
    (hlt : (if yd.key < e.key then yd else e).key < s.key) :
    daysInWindow s (if yd.key < e.key then yd else e) = [] ∧
    ∃ t, (WeatherRaw.materialize api (some s.iso) (some e.iso) yd.iso ts).2 = .ok t ∧
      WeatherRaw.nRows t = 0 ∧ List.lookup "time" t = some [] := by
  obtain ⟨hy1, hy2, hy3, hy4, hy5⟩ := hy
  obtain ⟨he1, he2, he3, he4, he5⟩ := he
  have hly := monthLen_le_31 yd.y yd.m
  have hle := monthLen_le_31 e.y e.m
  have hwin : daysInWindow s (if yd.key < e.key then yd else e) = [] :=
    daysInWindow_empty _ _ hlt
  have heffstr : WeatherRaw.effEnd e.iso yd.iso =
      (if yd.key < e.key then yd else e).iso := by
    unfold WeatherRaw.effEnd
    by_cases h : yd.key < e.key
    · rw [if_pos ((strLtB_iso_iff yd e hy5 (by omega) (by omega) he5 (by omega)
        (by omega)).mpr h), if_pos h]
    · have hf : strLtB yd.iso e.iso = false :=
        strLtB_iso_false yd e hy5 (by omega) (by omega) he5 (by omega) (by omega) (by omega)
      rw [if_neg (by rw [hf]; simp), if_neg h]
  obtain ⟨rest, hfetch, hmap, hlen⟩ :=
    WeatherRaw.fetch_conform s (if yd.key < e.key then yd else e) _ hconf
  refine ⟨hwin, ?_⟩
  unfold WeatherRaw.materialize
  dsimp only [Option.getD_some]
  rw [heffstr, hfetch]
  dsimp only
  rw [if_pos (by simp [WeatherRaw.withExtracted])]
  refine ⟨_, rfl, ?_, ?_⟩
  · simp [WeatherRaw.withExtracted, WeatherRaw.nRows, hwin]
  · simp [WeatherRaw.withExtracted, List.lookup, hwin]

/-- Claim C5 witness: the amended statement at the concrete inverted window
(start 2024-05-01, end 2024-04-01, yesterday 2024-05-31). -/
theorem C5_witness :
    ((⟨2024, 5, 1⟩ : SDate).Valid ∧ (⟨2024, 4, 1⟩ : SDate).Valid ∧
      (⟨2024, 5, 31⟩ : SDate).Valid ∧
      (if (⟨2024, 5, 31⟩ : SDate).key < (⟨2024, 4, 1⟩ : SDate).key
        then (⟨2024, 5, 31⟩ : SDate) else ⟨2024, 4, 1⟩).key < (⟨2024, 5, 1⟩ : SDate).key) ∧
    (daysInWindow ⟨2024, 5, 1⟩
      (if (⟨2024, 5, 31⟩ : SDate).key < (⟨2024, 4, 1⟩ : SDate).key
        then (⟨2024, 5, 31⟩ : SDate) else ⟨2024, 4, 1⟩) = [] ∧
    ∃ t, (WeatherRaw.materialize (fun _ _ => WeatherRaw.stubW ⟨2024, 5, 1⟩ ⟨2024, 4, 1⟩)
        (some (⟨2024, 5, 1⟩ : SDate).iso) (some (⟨2024, 4, 1⟩ : SDate).iso)
        (⟨2024, 5, 31⟩ : SDate).iso (.num 0)).2 = .ok t ∧
      WeatherRaw.nRows t = 0 ∧ List.lookup "time" t = some []) :=
  ⟨⟨by decide, by decide, by decide, by decide⟩,
    C5_theorem (fun _ _ => WeatherRaw.stubW ⟨2024, 5, 1⟩ ⟨2024, 4, 1⟩)
      ⟨2024, 5, 1⟩ ⟨2024, 4, 1⟩ ⟨2024, 5, 31⟩ (.num 0)
      (by decide) (by decide) (by decide)
      ⟨by decide, by decide,
        WeatherRaw.DAILY_VARIABLES.map
          (fun v => (v, (daysInWindow ⟨2024, 5, 1⟩ ⟨2024, 4, 1⟩).map (fun _ => Json.num 0))),
        by decide, by decide, rfl⟩
      (by decide)⟩

/-- Claim C6, counterexample to the claim as stated: a 2xx response whose
`daily` object carries an undeclared extra column `bogus` yields a materialized
table whose column set is not the declared schema — the weather routine passes
response columns through without validation. -/
theorem C6_counterexample :
    ∃ t, (WeatherRaw.materialize (fun _ _ => WeatherRaw.respExtraCol) none none
        "2026-10-11" (.num 0)).2 = .ok t ∧
      t.map Prod.fst = ["time", "bogus", "extracted_at"] ∧
      t.map Prod.fst ≠ WeatherRaw.declaredCols :=
  ⟨_, rfl, rfl, by decide⟩

/-- Claim C6 (amended): when the response obeys the API contract (its `daily`
object has exactly the declared keys), the weather table's column set is
exactly the declared schema; the Stack Exchange routine's rows always have
exactly the declared columns, since the code itself constructs them. -/
theorem C6_theorem (api : String → String → ApiResponse) (s e yd : SDate) (ts : Json)
    (he : e.Valid) (hy : yd.Valid)
    (hconf : WeatherRaw.ConformsW s (if yd.key < e.key then yd else e)
      (api s.iso (if yd.key < e.key then yd else e).iso)) :
    (∃ t, (WeatherRaw.materialize api (some s.iso) (some e.iso) yd.iso ts).2 = .ok t ∧
      t.map Prod.fst = WeatherRaw.declaredCols) ∧
    (∀ (api2 : Nat → Nat → ApiResponse) (ty tm : Nat) (ts2 : Json) tr res rows,
      StackRaw.materialize api2 ty tm ts2 = some (tr, res) → res = .ok rows →
      ∀ r ∈ rows, r.map Prod.fst = StackRaw.declaredCols) := by
  constructor
  · obtain ⟨hy1, hy2, hy3, hy4, hy5⟩ := hy
    obtain ⟨he1, he2, he3, he4, he5⟩ := he
    have hly := monthLen_le_31 yd.y yd.m
    have hle := monthLen_le_31 e.y e.m
    have heffstr : WeatherRaw.effEnd e.iso yd.iso =
        (if yd.key < e.key then yd else e).iso := by
      unfold WeatherRaw.effEnd
      by_cases h : yd.key < e.key
      · rw [if_pos ((strLtB_iso_iff yd e hy5 (by omega) (by omega) he5 (by omega)
          (by omega)).mpr h), if_pos h]
      · have hf : strLtB yd.iso e.iso = false :=
          strLtB_iso_false yd e hy5 (by omega) (by omega) he5 (by omega) (by omega) (by omega)
        rw [if_neg (by rw [hf]; simp), if_neg h]
    obtain ⟨rest, hfetch, hmap, hlen⟩ :=
      WeatherRaw.fetch_conform s (if yd.key < e.key then yd else e) _ hconf
    unfold WeatherRaw.materialize
    dsimp only [Option.getD_some]
    rw [heffstr, hfetch]
    dsimp only
    rw [if_pos (by simp [WeatherRaw.withExtracted])]
    refine ⟨_, rfl, ?_⟩
    simp [WeatherRaw.withExtracted, WeatherRaw.declaredCols, hmap]
  · intro api2 ty tm ts2 tr res rows hmat hres r hr
    unfold StackRaw.materialize at hmat
    cases hlp : StackRaw.seLoopF api2 ty tm (StackRaw.seFuel ty tm)
        StackRaw.START_YEAR StackRaw.START_MONTH with
    | none => rw [hlp] at hmat; simp at hmat
    | some pr =>
      rcases pr with ⟨tr0, res0⟩
      rw [hlp] at hmat
      simp only [Option.some.injEq, Prod.mk.injEq] at hmat
      obtain ⟨h1, h2⟩ := hmat
      cases res0 with
      | error e0 =>
        rw [← h2] at hres
        simp at hres
      | ok rows0 =>
        rw [← h2] at hres
        simp only [Except.ok.injEq] at hres
        subst hres
        obtain ⟨r0, hr0, rfl⟩ := List.mem_map.mp hr
        obtain ⟨y2, m2, c, rfl⟩ :=
          StackRaw.seLoopF_rows_shape api2 ty tm _ _ _ _ _ rows0 hlp rfl r0 hr0
        rfl

/-- Claim C6 witness: the amended statement at a concrete conforming window. -/
theorem C6_witness :
    ((⟨2024, 12, 31⟩ : SDate).Valid ∧ (⟨2024, 1, 2⟩ : SDate).Valid) ∧
    ((∃ t, (WeatherRaw.materialize (fun _ _ => WeatherRaw.stubW ⟨2024, 1, 1⟩ ⟨2024, 1, 2⟩)
        (some (⟨2024, 1, 1⟩ : SDate).iso) (some (⟨2024, 12, 31⟩ : SDate).iso)
        (⟨2024, 1, 2⟩ : SDate).iso (.num 0)).2 = .ok t ∧
      t.map Prod.fst = WeatherRaw.declaredCols) ∧
    (∀ (api2 : Nat → Nat → ApiResponse) (ty tm : Nat) (ts2 : Json) tr res rows,
      StackRaw.materialize api2 ty tm ts2 = some (tr, res) → res = .ok rows →
      ∀ r ∈ rows, r.map Prod.fst = StackRaw.declaredCols)) :=
  ⟨⟨by decide, by decide⟩,
    C6_theorem (fun _ _ => WeatherRaw.stubW ⟨2024, 1, 1⟩ ⟨2024, 1, 2⟩)
      ⟨2024, 1, 1⟩ ⟨2024, 12, 31⟩ ⟨2024, 1, 2⟩ (.num 0) (by decide) (by decide)
      ⟨by decide, by decide,
        WeatherRaw.DAILY_VARIABLES.map
          (fun v => (v, (daysInWindow ⟨2024, 1, 1⟩ ⟨2024, 1, 2⟩).map (fun _ => Json.num 0))),
        by decide, by decide, rfl⟩⟩

namespace StackRaw

lemma monthStr_ne (y1 m1 y2 m2 : Nat) (hy1 : 1000 ≤ y1) (hy1b : y1 ≤ 9999)
    (hm1 : m1 ≤ 99) (hy2 : 1000 ≤ y2) (hy2b : y2 ≤ 9999) (hm2 : m2 ≤ 99)
    (h : pairLt (y1, m1) (y2, m2)) : monthStr y1 m1 ≠ monthStr y2 m2 := by
  intro he
  unfold monthStr at he
  rw [natDigits_eq_pad4 y1 hy1 hy1b, natDigits_eq_pad4 y2 hy2 hy2b] at he
  have he2 : pad4 y1 ++ ('-' :: (pad2 m1 ++ ['-', '0', '1'])) =
      pad4 y2 ++ ('-' :: (pad2 m2 ++ ['-', '0', '1'])) := by
    injection he
  obtain ⟨hp4, hrest⟩ := List.append_inj he2 rfl
  have hyeq := pad4_inj _ _ hy1b hy2b hp4
  simp only [List.cons.injEq, true_and] at hrest
  obtain ⟨hp2, -⟩ := List.append_inj hrest rfl
  have hmeq := pad2_inj _ _ hm1 hm2 hp2
  have hd : y1 < y2 ∨ (y1 = y2 ∧ m1 < m2) := h
  rcases hd with h' | ⟨h', h''⟩ <;> omega

lemma windowMonths_mem (ty tm : Nat) (ht1 : 1 ≤ tm) (ht2 : tm ≤ 12) :
    ∀ p ∈ windowMonths ty tm, 1 ≤ p.2 ∧ p.2 ≤ 12 ∧ 2022 ≤ p.1 ∧ p.1 ≤ ty := by
  intro p hp
  unfold windowMonths at hp
  obtain ⟨c1, c2, c3, c4, c5⟩ := monthsFrom_mem _ _ _ (by decide) (by decide) p hp
  refine ⟨c1, c2, c3, ?_⟩
  have h1 : 12 * 2022 + 10 ≤ 12 * p.1 + p.2 := c4
  have h2 : 12 * p.1 + p.2 < 12 * 2022 + 10 + (12 * ty + tm + 1 - (12 * 2022 + 10)) := c5
  omega

lemma windowMonths_pairwise (ty tm : Nat) : List.Pairwise pairLt (windowMonths ty tm) := by
  unfold windowMonths
  exact monthsFrom_pairwise _ _ _ (by decide) (by decide)

end StackRaw

/-- Claim C8, counterexample to the claim as stated: a 2xx response whose
`daily.time` array repeats a date materializes into a table whose primary-key
column contains duplicate values — nothing in the routine enforces uniqueness
within a run. -/
theorem C8_counterexample :
    ∃ t, (WeatherRaw.materialize (fun _ _ => WeatherRaw.respDupTime) none none
        "2026-10-11" (.num 0)).2 = .ok t ∧
      List.lookup "time" t = some [Json.str "2024-01-01", Json.str "2024-01-01"] ∧
      ¬ (([Json.str "2024-01-01", Json.str "2024-01-01"] : List Json).Nodup) :=
  ⟨_, rfl, rfl, by simp⟩

/-- Claim C8 (amended): primary-key uniqueness holds for the rows the routines
actually build — under the API contract the weather `time` column lists the
pairwise-distinct days of the window, and the Stack Exchange `month` column is
always pairwise distinct because the loop visits each calendar month once. -/
theorem C8_theorem (api : String → String → ApiResponse) (s e yd : SDate) (ts : Json)
    (hs : s.Valid) (he : e.Valid) (hy : yd.Valid)
    (hconf : WeatherRaw.ConformsW s (if yd.key < e.key then yd else e)
      (api s.iso (if yd.key < e.key then yd else e).iso))
    (api2 : Nat → Nat → ApiResponse) (cnt : Nat → Nat → Json)
    (hok : ∀ y m, StackRaw.fetch_monthly_count (api2 y m) = .ok (cnt y m))
    (ty tm : Nat) (ht1 : 1 ≤ tm) (ht2 : tm ≤ 12) (hty : ty ≤ 9999) (ts2 : Json) :
    (∃ t times, (WeatherRaw.materialize api (some s.iso) (some e.iso) yd.iso ts).2 = .ok t ∧
      List.lookup "time" t = some times ∧ times.Nodup) ∧
    (∃ rows, StackRaw.materialize api2 ty tm ts2 =
        some (StackRaw.windowMonths ty tm, .ok rows) ∧
      (rows.map (fun r => getKey? r "month")).Nodup) := by
  constructor
  · have heffv : (if yd.key < e.key then yd else e).Valid := by
      by_cases h : yd.key < e.key
      · rw [if_pos h]; exact hy
      · rw [if_neg h]; exact he
    obtain ⟨hy1, hy2, hy3, hy4, hy5⟩ := hy
    obtain ⟨he1, he2, he3, he4, he5⟩ := he
    have hly := monthLen_le_31 yd.y yd.m
    have hle := monthLen_le_31 e.y e.m
    have heffstr : WeatherRaw.effEnd e.iso yd.iso =
        (if yd.key < e.key then yd else e).iso := by
      unfold WeatherRaw.effEnd
      by_cases h : yd.key < e.key
      · rw [if_pos ((strLtB_iso_iff yd e hy5 (by omega) (by omega) he5 (by omega)
          (by omega)).mpr h), if_pos h]
      · have hf : strLtB yd.iso e.iso = false :=
          strLtB_iso_false yd e hy5 (by omega) (by omega) he5 (by omega) (by omega) (by omega)
        rw [if_neg (by rw [hf]; simp), if_neg h]
    obtain ⟨rest, hfetch, hmap, hlen⟩ :=
      WeatherRaw.fetch_conform s (if yd.key < e.key then yd else e) _ hconf
    unfold WeatherRaw.materialize
    dsimp only [Option.getD_some]
    rw [heffstr, hfetch]
    dsimp only
    rw [if_pos (by simp [WeatherRaw.withExtracted])]
    refine ⟨_, (daysInWindow s (if yd.key < e.key then yd else e)).map
      (fun dt => Json.str dt.iso), rfl, ?_, ?_⟩
    · simp [WeatherRaw.withExtracted, List.lookup]
    · exact WeatherRaw.daysInWindow_iso_nodup s _ ⟨hs.1, hs.2.1, hs.2.2.1, hs.2.2.2.1⟩ heffv
  · rw [StackRaw.materialize_allok api2 cnt hok ty tm ts2 ht1 ht2]
    refine ⟨_, rfl, ?_⟩
    rw [List.map_map]
    have heq : ((StackRaw.windowMonths ty tm).map
        ((fun r => getKey? r "month") ∘
          (fun p => StackRaw.mkRow p.1 p.2 (cnt p.1 p.2) ++ [("extracted_at", ts2)]))) =
        (StackRaw.windowMonths ty tm).map
          (fun p => some (Json.str (StackRaw.monthStr p.1 p.2))) := rfl
    rw [heq]
    show List.Pairwise _ _
    rw [List.pairwise_map]
    refine List.Pairwise.imp_of_mem ?_ (StackRaw.windowMonths_pairwise ty tm)
    intro a b ha hb hab heq2
    obtain ⟨a1, a2, a3, a4⟩ := StackRaw.windowMonths_mem ty tm ht1 ht2 a ha
    obtain ⟨b1, b2, b3, b4⟩ := StackRaw.windowMonths_mem ty tm ht1 ht2 b hb
    have hstr : StackRaw.monthStr a.1 a.2 = StackRaw.monthStr b.1 b.2 := by
      have h4 : some (Json.str (StackRaw.monthStr a.1 a.2)) =
          some (Json.str (StackRaw.monthStr b.1 b.2)) := heq2
      simp only [Option.some.injEq, Json.str.injEq] at h4
      exact h4
    exact StackRaw.monthStr_ne a.1 a.2 b.1 b.2 (by omega) (by omega) (by omega)
      (by omega) (by omega) (by omega) hab hstr

/-- Claim C8 witness: the amended statement at a concrete window and stub
responses. -/
theorem C8_witness :
    ((⟨2024, 1, 1⟩ : SDate).Valid ∧ (⟨2024, 12, 31⟩ : SDate).Valid ∧
      (⟨2024, 1, 3⟩ : SDate).Valid ∧ (1 : Nat) ≤ 11 ∧ (11 : Nat) ≤ 12 ∧ (2023 : Nat) ≤ 9999) ∧
    ((∃ t times, (WeatherRaw.materialize (fun _ _ => WeatherRaw.stubW ⟨2024, 1, 1⟩ ⟨2024, 1, 3⟩)
        (some (⟨2024, 1, 1⟩ : SDate).iso) (some (⟨2024, 12, 31⟩ : SDate).iso)
        (⟨2024, 1, 3⟩ : SDate).iso (.num 0)).2 = .ok t ∧
      List.lookup "time" t = some times ∧ times.Nodup) ∧
    (∃ rows, StackRaw.materialize (fun _ _ => StackRaw.stubSE 7) 2023 11 (.num 0) =
        some (StackRaw.windowMonths 2023 11, .ok rows) ∧
      (rows.map (fun r => getKey? r "month")).Nodup)) :=
  ⟨⟨by decide, by decide, by decide, by decide, by decide, by decide⟩,
    C8_theorem (fun _ _ => WeatherRaw.stubW ⟨2024, 1, 1⟩ ⟨2024, 1, 3⟩)
      ⟨2024, 1, 1⟩ ⟨2024, 12, 31⟩ ⟨2024, 1, 3⟩ (.num 0)
      (by decide) (by decide) (by decide)
      ⟨by decide, by decide,
        WeatherRaw.DAILY_VARIABLES.map
          (fun v => (v, (daysInWindow ⟨2024, 1, 1⟩ ⟨2024, 1, 3⟩).map (fun _ => Json.num 0))),
        by decide, by decide, rfl⟩
      (fun _ _ => StackRaw.stubSE 7) (fun _ _ => Json.num 7) (fun _ _ => rfl)
      2023 11 (by decide) (by decide) (by decide) (.num 0)⟩

/-- Claim C3 (confirmed): with every month's request succeeding, the monthly
routine's `materialize` requests exactly the calendar months from October 2022
through the current month, once each, and returns one row per month in
strictly increasing chronological order; the row count is the number of months in that window. -/
theorem C3_theorem (api : Nat → Nat → ApiResponse) (cnt : Nat → Nat → Json)
    (hok : ∀ y m, StackRaw.fetch_monthly_count (api y m) = .ok (cnt y m))
    (ty tm : Nat) (ht1 : 1 ≤ tm) (ht2 : tm ≤ 12) (ts : Json) :
    ∃ rows, StackRaw.materialize api ty tm ts =
        some (StackRaw.windowMonths ty tm, .ok rows) ∧
      rows.length = StackRaw.monthIndex ty tm + 1 -
        StackRaw.monthIndex StackRaw.START_YEAR StackRaw.START_MONTH ∧
      (StackRaw.windowMonths ty tm).length = rows.length ∧
      (StackRaw.windowMonths ty tm).Nodup ∧
      rows.map (fun r => getKey? r "month") =
        (StackRaw.windowMonths ty tm).map
          (fun p => some (Json.str (StackRaw.monthStr p.1 p.2))) ∧
      List.Pairwise StackRaw.pairLt (StackRaw.windowMonths ty tm) := by
  rw [StackRaw.materialize_allok api cnt hok ty tm ts ht1 ht2]
  have hlen : (StackRaw.windowMonths ty tm).length =
      StackRaw.monthIndex ty tm + 1 -
        StackRaw.monthIndex StackRaw.START_YEAR StackRaw.START_MONTH := by
    unfold StackRaw.windowMonths
    exact StackRaw.monthsFrom_length _ _ _
  refine ⟨_, rfl, ?_, ?_, ?_, ?_, ?_⟩
  · rw [List.length_map]
    exact hlen
  · rw [List.length_map]
  · refine (StackRaw.windowMonths_pairwise ty tm).imp ?_
    intro p q hpq he
    subst he
    have hd : p.1 < p.1 ∨ (p.1 = p.1 ∧ p.2 < p.2) := hpq
    rcases hd with h | ⟨-, h⟩ <;> exact absurd h (lt_irrefl _)
  · rw [List.map_map]
    rfl
  · exact StackRaw.windowMonths_pairwise ty tm

/-- Claim C3 witness: the statement at the current month 2022-12 with a stub
API; the window holds the three months 2022-10 .. 2022-12. -/
theorem C3_witness :
    ((1 : Nat) ≤ 12 ∧ (12 : Nat) ≤ 12 ∧
      (∀ y m, StackRaw.fetch_monthly_count (StackRaw.stubSE 7) = .ok (Json.num 7) ∧
        y + m ≥ 0)) ∧
    ∃ rows, StackRaw.materialize (fun _ _ => StackRaw.stubSE 7) 2022 12 (.num 0) =
        some (StackRaw.windowMonths 2022 12, .ok rows) ∧
      rows.length = StackRaw.monthIndex 2022 12 + 1 -
        StackRaw.monthIndex StackRaw.START_YEAR StackRaw.START_MONTH ∧
      (StackRaw.windowMonths 2022 12).length = rows.length ∧
      (StackRaw.windowMonths 2022 12).Nodup ∧
      rows.map (fun r => getKey? r "month") =
        (StackRaw.windowMonths 2022 12).map
          (fun p => some (Json.str (StackRaw.monthStr p.1 p.2))) ∧
      List.Pairwise StackRaw.pairLt (StackRaw.windowMonths 2022 12) :=
  ⟨⟨by decide, by decide, fun y m => ⟨rfl, by omega⟩⟩,
    C3_theorem (fun _ _ => StackRaw.stubSE 7) (fun _ _ => Json.num 7) (fun _ _ => rfl)
      2022 12 (by decide) (by decide) (.num 0)⟩

/-- Claim C7, counterexample to the claim as stated: a 300 (Multiple Choices)
response — non-2xx — with a well-formed `daily` payload is not aborted:
`raise_for_status` raises only for 4xx/5xx, so `fetch` returns a table. -/
theorem C7_counterexample :
    WeatherRaw.resp300.status = 300 ∧
    ¬ (200 ≤ WeatherRaw.resp300.status ∧ WeatherRaw.resp300.status < 300) ∧
    ∃ t, WeatherRaw.fetch_weather_data WeatherRaw.resp300 = .ok t :=
  ⟨rfl, by decide, _, rfl⟩

/-- Claim C7 (amended): `fetch` issues exactly one HTTP request per unit of
work with no retry; a 4xx or 5xx response aborts the run with an error that
carries the offending response; and in the monthly variant the failure of any
single month's request aborts the entire run with an error result — no table
and no partial rows are returned.  (A non-2xx status outside 400–599, such as
300, is not raised by `raise_for_status`.) -/
theorem C7_theorem :
    (∀ (api : String → String → ApiResponse) envStart envEnd yesterday (ts : Json),
      (WeatherRaw.materialize api envStart envEnd yesterday ts).1.length = 1) ∧
    (∀ resp : ApiResponse, 400 ≤ resp.status → resp.status < 600 →
      WeatherRaw.fetch_weather_data resp = .error (.httpError resp) ∧
      StackRaw.fetch_monthly_count resp = .error (.httpError resp)) ∧
    (∀ (api2 : Nat → Nat → ApiResponse) (ty tm : Nat) (ts : Json),
      1 ≤ tm → tm ≤ 12 → ∀ p ∈ StackRaw.windowMonths ty tm,
      (∃ e0, StackRaw.fetch_monthly_count (api2 p.1 p.2) = .error e0) →
      ∃ tr e, StackRaw.materialize api2 ty tm ts = some (tr, .error e)) := by
  refine ⟨fun _ _ _ _ _ => rfl, ?_, ?_⟩
  · intro resp h1 h2
    have hrs : raisesForStatus resp.status = true := by
      simp only [raisesForStatus, Bool.and_eq_true, decide_eq_true_eq]
      omega
    constructor
    · unfold WeatherRaw.fetch_weather_data
      rw [hrs]
      simp
    · unfold StackRaw.fetch_monthly_count
      rw [hrs]
      simp
  · intro api2 ty tm ts ht1 ht2 p hp he
    exact StackRaw.materialize_error api2 ty tm ts ht1 ht2 p hp he

/-- Claim C7 witness: the amended statement exercised at a 300 response (not
aborted), a 404 response (aborted, carrying the response), and a run whose
first month's request fails (whole run aborted). -/
theorem C7_witness :
    ((WeatherRaw.materialize (fun _ _ => WeatherRaw.resp300) none none "2026-10-11"
        (.num 0)).1.length = 1) ∧
    (WeatherRaw.fetch_weather_data ⟨404, []⟩ = .error (.httpError ⟨404, []⟩) ∧
      StackRaw.fetch_monthly_count ⟨404, []⟩ = .error (.httpError ⟨404, []⟩)) ∧
    ((2022, 10) ∈ StackRaw.windowMonths 2023 2 ∧
      ∃ tr e, StackRaw.materialize (fun _ _ => (⟨404, []⟩ : ApiResponse)) 2023 2 (.num 0) =
        some (tr, .error e)) := by
  have hmem : (2022, 10) ∈ StackRaw.windowMonths 2023 2 := by decide
  exact ⟨C7_theorem.1 (fun _ _ => WeatherRaw.resp300) none none "2026-10-11" (.num 0),
    C7_theorem.2.1 ⟨404, []⟩ (by decide) (by decide),
    hmem,
    C7_theorem.2.2 (fun _ _ => (⟨404, []⟩ : ApiResponse)) 2023 2 (.num 0)
      (by decide) (by decide) (2022, 10) hmem ⟨_, rfl⟩⟩

/-- Claim C9 (confirmed): the month loop terminates for every current date —
each iteration strictly increases the `(year, month)` pair in lexicographic
order, the fuel `seFuel` suffices (any larger fuel gives the same result, and
the result is not the fuel-exhaustion marker), and on an error-free run the
loop visits exactly the months from `(2022, 10)` through `(ty, tm)`. -/
theorem C9_theorem (api : Nat → Nat → ApiResponse) (ty tm : Nat)
    (ht1 : 1 ≤ tm) (ht2 : tm ≤ 12) :
    (∀ y m, 1 ≤ m → m ≤ 12 → StackRaw.pairLt (y, m) (StackRaw.nextYM y m)) ∧
    StackRaw.seLoopF api ty tm (StackRaw.seFuel ty tm) StackRaw.START_YEAR
      StackRaw.START_MONTH ≠ none ∧
    (∀ fuel, StackRaw.seFuel ty tm ≤ fuel →
      StackRaw.seLoopF api ty tm fuel StackRaw.START_YEAR StackRaw.START_MONTH =
        StackRaw.seLoopF api ty tm (StackRaw.seFuel ty tm) StackRaw.START_YEAR
          StackRaw.START_MONTH) ∧
    (∀ cnt : Nat → Nat → Json,
      (∀ y m, StackRaw.fetch_monthly_count (api y m) = .ok (cnt y m)) →
      ∃ rows, StackRaw.seLoopF api ty tm (StackRaw.seFuel ty tm) StackRaw.START_YEAR
          StackRaw.START_MONTH = some (StackRaw.windowMonths ty tm, .ok rows) ∧
        (StackRaw.windowMonths ty tm).length =
          StackRaw.monthIndex ty tm + 1 -
            StackRaw.monthIndex StackRaw.START_YEAR StackRaw.START_MONTH) := by
  have e1 : StackRaw.seFuel ty tm = 12 * ty + tm + 1 := rfl
  have e2 : StackRaw.monthIndex ty tm = 12 * ty + tm := rfl
  have e3 : StackRaw.monthIndex StackRaw.START_YEAR StackRaw.START_MONTH = 24274 := rfl
  refine ⟨?_, ?_, ?_, ?_⟩
  · intro y m h1 h2
    obtain ⟨b1, b2, b3⟩ := StackRaw.nextYM_bounds y m h1 h2
    have hidx := StackRaw.nextYM_index y m h1 h2
    exact StackRaw.pairLt_of_index y m (StackRaw.nextYM y m).1 (StackRaw.nextYM y m).2
      b2 (by omega)
  · rw [StackRaw.seLoopF_materialize_fuel api ty tm ht1 ht2]
    simp
  · intro fuel hf
    rw [StackRaw.seLoopF_materialize_fuel api ty tm ht1 ht2]
    exact StackRaw.seLoopF_eq_buildMonths api ty tm ht1 ht2 fuel _ _ _
      (by decide) (by decide) rfl (by omega)
  · intro cnt hok
    rw [StackRaw.seLoopF_materialize_fuel api ty tm ht1 ht2,
      StackRaw.buildMonths_allok api cnt hok]
    exact ⟨_, rfl, by unfold StackRaw.windowMonths; exact StackRaw.monthsFrom_length _ _ _⟩

/-- Claim C9 witness: the termination statement at the current month 2023-03. -/
theorem C9_witness :
    ((1 : Nat) ≤ 3 ∧ (3 : Nat) ≤ 12) ∧
    ((∀ y m, 1 ≤ m → m ≤ 12 → StackRaw.pairLt (y, m) (StackRaw.nextYM y m)) ∧
    StackRaw.seLoopF (fun _ _ => StackRaw.stubSE 5) 2023 3 (StackRaw.seFuel 2023 3)
      StackRaw.START_YEAR StackRaw.START_MONTH ≠ none ∧
    (∀ fuel, StackRaw.seFuel 2023 3 ≤ fuel →
      StackRaw.seLoopF (fun _ _ => StackRaw.stubSE 5) 2023 3 fuel StackRaw.START_YEAR
          StackRaw.START_MONTH =
        StackRaw.seLoopF (fun _ _ => StackRaw.stubSE 5) 2023 3 (StackRaw.seFuel 2023 3)
          StackRaw.START_YEAR StackRaw.START_MONTH) ∧
    (∀ cnt : Nat → Nat → Json,
      (∀ y m, StackRaw.fetch_monthly_count (StackRaw.stubSE 5) = .ok (cnt y m)) →
      ∃ rows, StackRaw.seLoopF (fun _ _ => StackRaw.stubSE 5) 2023 3
          (StackRaw.seFuel 2023 3) StackRaw.START_YEAR StackRaw.START_MONTH =
        some (StackRaw.windowMonths 2023 3, .ok rows) ∧
        (StackRaw.windowMonths 2023 3).length =
          StackRaw.monthIndex 2023 3 + 1 -
            StackRaw.monthIndex StackRaw.START_YEAR StackRaw.START_MONTH)) :=
  ⟨⟨by decide, by decide⟩,
    C9_theorem (fun _ _ => StackRaw.stubSE 5) 2023 3 (by decide) (by decide)⟩

/-- Claim C10 (confirmed): every `month` value the monthly routine produces has
the exact form `YYYY-MM-01` with a four-digit year and a zero-padded month
between 01 and 12, and the month sequence is strictly increasing in calendar
(lexicographic year-month) order. -/
theorem C10_theorem (api : Nat → Nat → ApiResponse) (cnt : Nat → Nat → Json)
    (hok : ∀ y m, StackRaw.fetch_monthly_count (api y m) = .ok (cnt y m))
    (ty tm : Nat) (ht1 : 1 ≤ tm) (ht2 : tm ≤ 12) (hty : ty ≤ 9999) (ts : Json) :
    ∃ rows, StackRaw.materialize api ty tm ts =
        some (StackRaw.windowMonths ty tm, .ok rows) ∧
      rows.map (fun r => getKey? r "month") =
        (StackRaw.windowMonths ty tm).map
          (fun p => some (Json.str (StackRaw.monthStr p.1 p.2))) ∧
      (∀ p ∈ StackRaw.windowMonths ty tm,
        StackRaw.isYYYYMM01 (StackRaw.monthStr p.1 p.2)) ∧
      List.Pairwise StackRaw.pairLt (StackRaw.windowMonths ty tm) := by
  rw [StackRaw.materialize_allok api cnt hok ty tm ts ht1 ht2]
  refine ⟨_, rfl, ?_, ?_, StackRaw.windowMonths_pairwise ty tm⟩
  · rw [List.map_map]
    rfl
  · intro p hp
    obtain ⟨a1, a2, a3, a4⟩ := StackRaw.windowMonths_mem ty tm ht1 ht2 p hp
    refine ⟨p.1, p.2, by omega, by omega, a1, a2, ?_⟩
    unfold StackRaw.monthStr
    rw [natDigits_eq_pad4 p.1 (by omega) (by omega)]

/-- Claim C10 witness: the month-format statement at the current month 2023-01
with a stub API. -/
theorem C10_witness :
    ((1 : Nat) ≤ 1 ∧ (1 : Nat) ≤ 12 ∧ (2023 : Nat) ≤ 9999) ∧
    ∃ rows, StackRaw.materialize (fun _ _ => StackRaw.stubSE 9) 2023 1 (.num 0) =
        some (StackRaw.windowMonths 2023 1, .ok rows) ∧
      rows.map (fun r => getKey? r "month") =
        (StackRaw.windowMonths 2023 1).map
          (fun p => some (Json.str (StackRaw.monthStr p.1 p.2))) ∧
      (∀ p ∈ StackRaw.windowMonths 2023 1,
        StackRaw.isYYYYMM01 (StackRaw.monthStr p.1 p.2)) ∧
      List.Pairwise StackRaw.pairLt (StackRaw.windowMonths 2023 1) :=
  ⟨⟨by decide, by decide, by decide⟩,
    C10_theorem (fun _ _ => StackRaw.stubSE 9) (fun _ _ => Json.num 9) (fun _ _ => rfl)
      2023 1 (by decide) (by decide) (by decide) (.num 0)⟩
